import Mathlib

/-!
Verification of the While-1-Amino multi-source protein-data reconciliation
layer.  The definitions below are a shallow embedding of the Python modules
`data/protein_data_service.py`, `data/uniprot_api.py`, `data/structure_api.py`,
`data/interaction_api.py` and `data/disease_drug_api.py`.  Python dict-shaped
records are modelled as association lists of `PyVal` values, external HTTP
endpoints as explicit oracle functions, and exceptions as `Except`/option
shaped results.  Each adapter-level or service-level function is translated
statement by statement from the source file it names.
-/

/-- A Python/JSON-like value: the duck-typed data the adapters exchange. -/
inductive PyVal where
  | str : String → PyVal
  | int : Int → PyVal
  | bool : Bool → PyVal
  | none : PyVal
  | list : List PyVal → PyVal
  | dict : List (String × PyVal) → PyVal

/-- A Python dict, in insertion order. -/
abbrev Dict := List (String × PyVal)

/-- First-match association-list lookup: Python `d[k]` / `k in d`. -/
def alookup {β : Type} (k : String) : List (String × β) → Option β
  | [] => Option.none
  | (k', v) :: rest => if k' = k then some v else alookup k rest

/-- Python dict assignment `d[k] = v`: replace the key in place or append. -/
def aset {β : Type} (k : String) (v : β) : List (String × β) → List (String × β)
  | [] => [(k, v)]
  | (k', v') :: rest => if k' = k then (k, v) :: rest else (k', v') :: aset k v rest

/-- ASCII upper-casing of one character (Python `str.upper` on the ASCII
inputs that occur here). -/
def upChar (c : Char) : Char := if 'a' ≤ c && c ≤ 'z' then Char.ofNat (c.toNat - 32) else c

/-- ASCII lower-casing of one character. -/
def lowChar (c : Char) : Char := if 'A' ≤ c && c ≤ 'Z' then Char.ofNat (c.toNat + 32) else c

/-- `s.upper()`. -/
def pyUpper (s : String) : String := String.mk (s.toList.map upChar)

/-- `s.lower()`. -/
def pyLower (s : String) : String := String.mk (s.toList.map lowChar)

/-- `s.strip()`. -/
def pyStrip (s : String) : String :=
  String.mk (((s.toList.dropWhile Char.isWhitespace).reverse.dropWhile Char.isWhitespace).reverse)

/-- `s.startswith(pre)`. -/
def startsWithS (s pre : String) : Bool := pre.toList.isPrefixOf s.toList

/-- Python truthiness of a value. -/
def truthy : PyVal → Bool
  | .str s => s ≠ ""
  | .int n => n ≠ 0
  | .bool b => b
  | .none => false
  | .list l => !l.isEmpty
  | .dict d => !d.isEmpty

/-- The string carried by a value; adapter identifier fields are strings, so
this is only applied where the Python code calls a string method on the
value. -/
def strOf : PyVal → String
  | .str s => s
  | _ => ""

/-- Python `str(v)` as used in f-string interpolation.  Faithful for the
string values that actually flow through the chat formatter; compound values
are printed with a placeholder (their exact repr never matters to any claim).
-/
def pyStrOf : PyVal → String
  | .str s => s
  | .int n => toString n
  | .bool b => if b then "True" else "False"
  | .none => "None"
  | .list _ => "<list>"
  | .dict _ => "<dict>"

/-- `d.get(k, dflt)`. -/
def pyGetD (d : Dict) (k : String) (dflt : PyVal) : PyVal :=
  (alookup k d).getD dflt

/-- `d.get(k)` (default `None`). -/
def pyGetNone (d : Dict) (k : String) : PyVal :=
  (alookup k d).getD PyVal.none

/-- `"error" in d`: the adapters' error-marker convention. -/
def hasError (d : Dict) : Bool := (alookup "error" d).isSome

/-- `isinstance(v, dict) and "error" in v`: the reconciliation service's
test for a failed sub-adapter result. -/
def isErrDict : PyVal → Bool
  | .dict d => hasError d
  | _ => false

/-! ## Field-level merge and function/summary backfill
(`protein_data_service.py` lines 89-109). -/

/-- One step of `for key, value in secondary_info.items(): if key not in
protein_info or not protein_info[key]: protein_info[key] = value`. -/
def mergeStep (acc : Dict) (kv : String × PyVal) : Dict :=
  match alookup kv.1 acc with
  | Option.none => aset kv.1 kv.2 acc
  | some v => if truthy v then acc else aset kv.1 kv.2 acc

/-- The merge loop of lines 91-93: fill absent-or-falsy primary fields from
the secondary record. -/
def mergeSecondary (primary secondary : Dict) : Dict :=
  secondary.foldl mergeStep primary

/-- Lines 96-109: the special handling of `function` and `summary` applied
after the merge loop. -/
def backfill (p sec : Dict) : Dict :=
  let p1 := if !truthy (pyGetNone p "function") && truthy (pyGetNone sec "function") then
      aset "function" (pyGetNone sec "function") p else p
  let p2 := if !truthy (pyGetNone p1 "summary") && truthy (pyGetNone sec "summary") then
      aset "summary" (pyGetNone sec "summary") p1 else p1
  let p3 := if truthy (pyGetNone p2 "summary") && !truthy (pyGetNone p2 "function") then
      aset "function" (pyGetNone p2 "summary") p2 else p2
  let p4 := if truthy (pyGetNone p3 "function") && !truthy (pyGetNone p3 "summary") then
      aset "summary" (pyGetNone p3 "function") p3 else p3
  p4

/-- Lines 88-109 as a whole: `if secondary_info and "error" not in
secondary_info:` guards both the merge loop and the backfill. -/
def enhance (p : Dict) (sec : Option Dict) : Dict :=
  match sec with
  | Option.none => p
  | some s => if !s.isEmpty && !hasError s then backfill (mergeSecondary p s) s else p
/-! ## Primary-source selection and identifier resolution
(`protein_data_service.py` lines 47-86). -/

/-- Result of a call to `NCBIProteinAPI.get_uniprot_mapping` as observed by
the service: the call either raises (caught at lines 83-84) or returns a
dict. -/
inductive MapResult where
  | raised : MapResult
  | ok : Dict → MapResult

/-- Result of a guarded sub-adapter call (structure / interaction /
disease-drug): the call either raises (caught by the service) or returns a
value. -/
inductive SubResult where
  | raised : SubResult
  | ok : PyVal → SubResult

/-- A sub-adapter call the service absorbs into an empty section: it raised,
or it returned a dict carrying an `error` key (lines 116-118, 126-128,
136-138). -/
def SubResult.absorbed : SubResult → Bool
  | .raised => true
  | .ok v => isErrDict v

/-- `structure_info = X if ... else {"structures": []}` shape: the guarded
assignment pattern the service applies to every sub-section. -/
def sectionOf (res : SubResult) (empty : PyVal) : PyVal :=
  match res with
  | .raised => empty
  | .ok v => if isErrDict v then empty else v

/-- The oracle environment for one reconciliation query: what each adapter
method called by `ProteinDataService.get_protein_data` returns.  The two
identity summaries always return dicts (both `get_protein_summary`
implementations catch internally and return `{"error": ...}` dicts). -/
structure Env where
  uniprotSummary : String → Dict
  ncbiSummary : String → Dict
  uniprotMapping : String → MapResult
  structureSummary : String → String → SubResult
  interactionsCall : String → String → SubResult
  diseaseDrugCall : String → String → SubResult

/-- Lines 47-64: prefer UniProt when it did not error, else NCBI, else fail;
the chosen primary gets its `data_source` field stamped, and the secondary
is kept only in the UniProt-primary case. -/
def selectPrimary (u n : Dict) : Option (Dict × Option Dict) :=
  if !hasError u then some (aset "data_source" (PyVal.str "UniProt") u, some n)
  else if !hasError n then some (aset "data_source" (PyVal.str "NCBI") n, Option.none)
  else Option.none

/-- Line 67: `protein_info.get("accession", protein_info.get("uniprot_id", ""))`. -/
def extractId (p : Dict) : String :=
  strOf ((alookup "accession" p).getD ((alookup "uniprot_id" p).getD (PyVal.str "")))

/-- Line 68: `protein_info.get("gene_symbol", query)`. -/
def extractGene (p : Dict) (query : String) : String :=
  strOf ((alookup "gene_symbol" p).getD (PyVal.str query))

/-- Lines 71-84: when the accession is a `GENE_` placeholder and a gene
symbol exists, ask the NCBI adapter's mapping lookup for a real accession;
on success overwrite `accession` and `uniprot_id`, on any failure keep the
placeholder.  Returns the resolved id, the updated record and the number of
mapping calls made. -/
def resolveMapping (env : Env) (p : Dict) (uid gene : String) : String × Dict × Nat :=
  if startsWithS uid "GENE_" && gene ≠ "" then
    match env.uniprotMapping gene with
    | .raised => (uid, p, 1)
    | .ok m =>
      if !m.isEmpty && (alookup "uniprot_id" m).isSome then
        let newId := strOf ((alookup "uniprot_id" m).getD (PyVal.str ""))
        (newId, aset "uniprot_id" (PyVal.str newId) (aset "accession" (PyVal.str newId) p), 1)
      else (uid, p, 1)
  else (uid, p, 0)

/-! ## Record assembly and the per-query cache
(`protein_data_service.py` lines 28-162). -/

/-- The empty structure section `{"structures": []}`. -/
def emptyStructures : PyVal := PyVal.dict [("structures", PyVal.list [])]

/-- The empty interaction section `{"interactions": []}`. -/
def emptyInteractions : PyVal := PyVal.dict [("interactions", PyVal.list [])]

/-- The empty disease/drug section `{"diseases": [], "drugs": []}`. -/
def emptyDiseaseDrug : PyVal :=
  PyVal.dict [("diseases", PyVal.list []), ("drugs", PyVal.list [])]

/-- The `combined_data` dict of lines 143-151.  Its keys are fixed, so it is
modelled as a structure; `basic_info` is always a dict, the three sections
hold whatever the guarded sub-adapter calls produced. -/
structure CombinedRecord where
  query : String
  basic_info : Dict
  structureInfo : PyVal
  interactionInfo : PyVal
  diseaseDrugInfo : PyVal
  data_source : PyVal
  ai_generated : Bool

/-- How many times each adapter method was invoked during one
`get_protein_data` call. -/
structure Calls where
  uniprotN : Nat
  ncbiN : Nat
  mappingN : Nat
  structureN : Nat
  interactionN : Nat
  diseaseDrugN : Nat
deriving DecidableEq

/-- No adapter invoked at all (the cache-hit path). -/
def zeroCalls : Calls := ⟨0, 0, 0, 0, 0, 0⟩

/-- The outcome of `get_protein_data`: the error dict of lines 59-64 (both
identity sources failed), or the assembled record. -/
inductive GpdResult where
  | errRes : String → String → GpdResult
  | okRes : CombinedRecord → GpdResult

/-- The id resolution of lines 67-84 for a chosen primary record. -/
def resolvedPair (env : Env) (p0 : Dict) (query : String) : String × Dict × Nat :=
  resolveMapping env p0 (extractId p0) (extractGene p0 query)

/-- Lines 67-151 for a chosen primary/secondary pair: resolve the id,
enhance with the secondary, run the three guarded section calls, assemble
`combined_data`. -/
def assembleRecord (env : Env) (query : String) (p0 : Dict) (sec : Option Dict) :
    CombinedRecord :=
  let uid := (resolvedPair env p0 query).1
  let gene := extractGene p0 query
  let p := enhance (resolvedPair env p0 query).2.1 sec
  { query := query
    basic_info := p
    structureInfo :=
      if uid ≠ "" && !startsWithS uid "GENE_" then
        sectionOf (env.structureSummary uid gene) emptyStructures
      else emptyStructures
    interactionInfo := sectionOf (env.interactionsCall gene uid) emptyInteractions
    diseaseDrugInfo := sectionOf (env.diseaseDrugCall gene uid) emptyDiseaseDrug
    data_source := pyGetD p "data_source" (PyVal.str "Combined")
    ai_generated := false }

/-- The adapter invocations made on the path of `assembleRecord`. -/
def assembleCalls (env : Env) (query : String) (p0 : Dict) : Calls :=
  let uid := (resolvedPair env p0 query).1
  { uniprotN := 1, ncbiN := 1
    mappingN := (resolvedPair env p0 query).2.2
    structureN := if uid ≠ "" && !startsWithS uid "GENE_" then 1 else 0
    interactionN := 1, diseaseDrugN := 1 }

/-- The cache-miss body of `get_protein_data` (lines 36-162). -/
def gpdCore (env : Env) (query : String) : GpdResult × Calls :=
  match selectPrimary (env.uniprotSummary query) (env.ncbiSummary query) with
  | Option.none =>
    (GpdResult.errRes ("No protein data found for '" ++ query ++
        "' in either UniProt or NCBI databases.") query,
      { uniprotN := 1, ncbiN := 1, mappingN := 0, structureN := 0,
        interactionN := 0, diseaseDrugN := 0 })
  | some (p0, sec) =>
    (GpdResult.okRes (assembleRecord env query p0 sec), assembleCalls env query p0)

/-- The process-lifetime cache `self.cache` (only successful records are
ever written to it, line 154). -/
abbrev Cache := List (String × CombinedRecord)

/-- Line 31: `cache_key = f"protein_data_{query}"`. -/
def cacheKey (query : String) : String := "protein_data_" ++ query

/-- `ProteinDataService.get_protein_data`: cache lookup, then the cache-miss
body, then the cache write of line 154.  Returns the result, the updated
cache and the adapter invocation counts of this call. -/
def get_protein_data (env : Env) (cache : Cache) (query : String) :
    GpdResult × Cache × Calls :=
  match alookup (cacheKey query) cache with
  | some r => (GpdResult.okRes r, cache, zeroCalls)
  | Option.none =>
    match gpdCore env query with
    | (GpdResult.okRes r, cs) => (GpdResult.okRes r, aset (cacheKey query) r cache, cs)
    | (e, cs) => (e, cache, cs)

/-- The resolved accession (after the mapping-resolution attempt of lines
71-84) for a query, as computed inside `get_protein_data`; empty when both
identity sources failed. -/
def resolvedIdOf (env : Env) (query : String) : String :=
  match selectPrimary (env.uniprotSummary query) (env.ncbiSummary query) with
  | Option.none => ""
  | some (p0, _) => (resolvedPair env p0 query).1

/-- The gene symbol used for the sub-adapter calls, as computed inside
`get_protein_data`; empty when both identity sources failed. -/
def geneSymbolOf (env : Env) (query : String) : String :=
  match selectPrimary (env.uniprotSummary query) (env.ncbiSummary query) with
  | Option.none => ""
  | some (p0, _) => extractGene p0 query

/-! ## Structure-entry validation (`structure_api.py` lines 12-41). -/

/-- `[A-Z0-9]`. -/
def upperAlnum (c : Char) : Bool := c.isUpper || c.isDigit

/-- The PDB-id shape `^[0-9][A-Za-z0-9]{3}$` of line 30. -/
def pdbIdShaped (s : String) : Bool :=
  match s.toList with
  | [a, b, c, d] => a.isDigit && b.isAlphanum && c.isAlphanum && d.isAlphanum
  | _ => false

/-- The UniProt-accession shape `^[A-Z][0-9][A-Z0-9]{3}[0-9]$` of line 32
(the simplified pattern `structure_api.py` uses, also found at
`ncbi_api.py` line 385 and `structure_api.py` line 47). -/
def accessionShaped (s : String) : Bool :=
  match s.toList with
  | [a, b, c, d, e, f] =>
    a.isUpper && b.isDigit && upperAlnum c && upperAlnum d && upperAlnum e && f.isDigit
  | _ => false

/-- Line 12: `VALID_SOURCES = {"pdb", "alphafold"}`. -/
def VALID_SOURCES : List String := ["pdb", "alphafold"]

/-- `ProteinStructureAPI.validate_structure_info` (lines 17-41) on a
dict-shaped structure entry; `.error` models a raised `ValueError`.  The
entries the adapters construct carry string `id`/`source` values, which
`strOf` extracts. -/
def validate_structure_info (structure_info : Dict) : Except String Dict :=
  match alookup "id" structure_info with
  | Option.none => Except.error "Structure info must contain an 'id' field"
  | some idv =>
    let source0 := pyLower (strOf ((alookup "source" structure_info).getD (PyVal.str "")))
    let sourceE : Except String String :=
      if source0 = "" then
        if pdbIdShaped (strOf idv) then Except.ok "pdb"
        else if accessionShaped (strOf idv) then Except.ok "alphafold"
        else Except.error ("Invalid or missing source for structure ID: " ++ strOf idv)
      else Except.ok source0
    match sourceE with
    | Except.error e => Except.error e
    | Except.ok src =>
      if VALID_SOURCES.contains src then
        Except.ok (aset "source" (PyVal.str src) structure_info)
      else Except.error ("Invalid source '" ++ src ++ "'.")

/-! ## HTTP oracle shared by the adapter embeddings. -/

/-- What one `requests` call does: raise (connection error, timeout, ...) or
return a response with a status code and a parsed JSON body. -/
inductive HttpResp where
  | raised : HttpResp
  | resp : Nat → PyVal → HttpResp

/-- The network world an adapter instance talks to: `session.get(url,
params)` and `session.post(url, data)`. -/
structure Http where
  get : String → List (String × String) → HttpResp
  post : String → List (String × PyVal) → HttpResp

/-! ## UniProt identity adapter (`uniprot_api.py`). -/

/-- `UniProtAPI.COMMON_PROTEINS` (lines 12-28): gene symbol to accession. -/
def COMMON_PROTEINS : List (String × String) :=
  [("TP53", "P04637"), ("BRCA1", "P38398"), ("BRCA2", "P51587"), ("EGFR", "P00533"),
   ("INS", "P01308"), ("APP", "P05067"), ("APOE", "P02649"), ("TNF", "P01375"),
   ("IL6", "P05231"), ("ALB", "P02768"), ("KRAS", "P01116"), ("PTEN", "P60484"),
   ("VEGFA", "P15692"), ("SOD1", "P00441"), ("CFTR", "P13569")]

def UNIPROT_BASE_URL : String := "https://rest.uniprot.org/uniprotkb/"

def UNIPROT_SEARCH_URL : String := "https://rest.uniprot.org/uniprotkb/search"

/-- The full accession regex of `uniprot_api.py` line 60:
`^[OPQ][0-9][A-Z0-9]{3}[0-9]$|^[A-NR-Z][0-9]([A-Z][A-Z0-9]{2}[0-9]){1,2}$`. -/
def accGroup (cs : List Char) : Bool :=
  match cs with
  | [u, x, y, d] => u.isUpper && upperAlnum x && upperAlnum y && d.isDigit
  | _ => false

def uniprotAccessionPattern (s : String) : Bool :=
  match s.toList with
  | [a, b, c, d, e, f] =>
    ((a = 'O' || a = 'P' || a = 'Q') && b.isDigit && upperAlnum c && upperAlnum d &&
      upperAlnum e && f.isDigit) ||
    ((('A' ≤ a && a ≤ 'N') || ('R' ≤ a && a ≤ 'Z')) && b.isDigit && accGroup [c, d, e, f])
  | a :: b :: rest =>
    (('A' ≤ a && a ≤ 'N') || ('R' ≤ a && a ≤ 'Z')) && b.isDigit &&
      rest.length = 8 && accGroup (rest.take 4) && accGroup (rest.drop 4)
  | _ => false

/-- `UniProtAPI.get_protein_by_accession` (lines 126-140): one network call;
non-200 statuses and raised exceptions are converted to error dicts. -/
def get_protein_by_accession (http : Http) (accession : String) : PyVal :=
  match http.get (UNIPROT_BASE_URL ++ accession) [] with
  | HttpResp.raised => PyVal.dict [("error", PyVal.str "request exception")]
  | HttpResp.resp status body =>
    if status = 200 then body
    else PyVal.dict
      [("error", PyVal.str ("Error getting protein by accession: " ++ toString status))]

/-- Outcome of one search approach (lines 76-116): the `session.get` raised
(aborting `search_protein` through its outer `except`), or a 200 response
with `totalHits > 0` was found, or the approach missed. -/
inductive ApproachOut where
  | raisedE : ApproachOut
  | found : PyVal → ApproachOut
  | missA : ApproachOut

/-- One search approach: GET the search URL, and on a 200 inspect
`totalHits`; a non-dict 200 body or a non-integer `totalHits` would raise in
Python (`.get` / `>` on the wrong type) and so maps to `raisedE`. -/
def approachStep (http : Http) (qparam : String) : ApproachOut :=
  match http.get UNIPROT_SEARCH_URL [("query", qparam), ("format", "json"), ("size", "5")] with
  | HttpResp.raised => ApproachOut.raisedE
  | HttpResp.resp status body =>
    if status = 200 then
      match body with
      | PyVal.dict d =>
        match pyGetD d "totalHits" (PyVal.int 0) with
        | PyVal.int nHits => if nHits > 0 then ApproachOut.found body else ApproachOut.missA
        | _ => ApproachOut.raisedE
      | _ => ApproachOut.raisedE
    else ApproachOut.missA

/-- The three query strings of approaches 1-3 (lines 76-116). -/
def approachQueries (cleaned : String) : List String :=
  [cleaned ++ " AND organism_id:9606",
   "gene:" ++ cleaned ++ " AND organism_id:9606",
   "protein_name:" ++ cleaned ++ " AND organism_id:9606"]

/-- Run the approaches in order, counting one network call each, falling
through on a miss; after the last, return the error dict of line 120. -/
def runApproaches (http : Http) (cleaned : String) : List String → Nat → PyVal × Nat
  | [], n => (PyVal.dict [("error", PyVal.str ("No protein found for query: " ++ cleaned))], n)
  | qp :: rest, n =>
    match approachStep http qp with
    | ApproachOut.raisedE => (PyVal.dict [("error", PyVal.str "request exception")], n + 1)
    | ApproachOut.found v => (v, n + 1)
    | ApproachOut.missA => runApproaches http cleaned rest (n + 1)

/-- The `{"results": [pd], "totalHits": 1}` wrapper of lines 52-55. -/
def wrapHits (pd : PyVal) : PyVal :=
  PyVal.dict [("results", PyVal.list [pd]), ("totalHits", PyVal.int 1)]

/-- `UniProtAPI.search_protein` (lines 38-124), returning the result and the
number of network calls issued.  On a static-table hit the adapter does NOT
return canned data: it issues a direct accession lookup over the network
(lines 45-57) and only falls through when that lookup errors. -/
def uniprot_search_protein (http : Http) (query : String) : PyVal × Nat :=
  let cleaned := pyUpper (pyStrip query)
  let known : Option PyVal × Nat :=
    match alookup cleaned COMMON_PROTEINS with
    | some acc =>
      let pd := get_protein_by_accession http acc
      if isErrDict pd then (Option.none, 1) else (some (wrapHits pd), 1)
    | Option.none => (Option.none, 0)
  match known with
  | (some out, n) => (out, n)
  | (Option.none, n1) =>
    let direct : Option PyVal × Nat :=
      if uniprotAccessionPattern cleaned then
        let pd := get_protein_by_accession http cleaned
        if isErrDict pd then (Option.none, n1 + 1) else (some (wrapHits pd), n1 + 1)
      else (Option.none, n1)
    match direct with
    | (some out, n) => (out, n)
    | (Option.none, n2) => runApproaches http cleaned (approachQueries cleaned) n2

/-! ## NCBI identity adapter, static-table path (`ncbi_api.py` lines
19-54, 83-100 and 170-259).  Claim C4 cites the static-table branch of
`search_protein`; the branch is embedded together with the whole of
`get_protein_by_gene_id`, the chained esummary/esearch/efetch construction
it runs on a table hit. -/

def NCBI_EUTILS_BASE : String := "https://eutils.ncbi.nlm.nih.gov/entrez/eutils/"

def NCBI_EFETCH_URL : String := NCBI_EUTILS_BASE ++ "efetch.fcgi"

def NCBI_ESEARCH_URL : String := NCBI_EUTILS_BASE ++ "esearch.fcgi"

def NCBI_ESUMMARY_URL : String := NCBI_EUTILS_BASE ++ "esummary.fcgi"

/-- `NCBIProteinAPI.COMMON_PROTEINS` (ncbi_api.py lines 19-35) lists
exactly the same symbol/accession pairs as `UniProtAPI.COMMON_PROTEINS`
(uniprot_api.py lines 12-28). -/
def NCBI_COMMON_PROTEINS : List (String × String) := COMMON_PROTEINS

/-- `NCBIProteinAPI.COMMON_GENE_IDS` (ncbi_api.py lines 38-54). -/
def COMMON_GENE_IDS : List (String × String) :=
  [("TP53", "7157"), ("BRCA1", "672"), ("BRCA2", "675"), ("EGFR", "1956"),
   ("INS", "3630"), ("APP", "351"), ("APOE", "348"), ("TNF", "7124"),
   ("IL6", "3569"), ("ALB", "213"), ("KRAS", "3845"), ("PTEN", "5728"),
   ("VEGFA", "7422"), ("SOD1", "6647"), ("CFTR", "1080")]

/-- `s.split(c)` for a one-character separator (no empty-part removal,
like Python's `str.split` with an explicit separator). -/
def splitCharAux (c : Char) : List Char → List Char → List (List Char)
  | [], acc => [acc.reverse]
  | x :: xs, acc =>
    if x = c then acc.reverse :: splitCharAux c xs [] else splitCharAux c xs (x :: acc)

def pySplitChar (s : String) (c : Char) : List String :=
  (splitCharAux c s.toList []).map String.mk

/-- `s.split(c)[0]`: the prefix before the first occurrence of `c`. -/
def takeBeforeChar (s : String) (c : Char) : String :=
  String.mk (s.toList.takeWhile (fun x => x ≠ c))

/-- `s[1:]`. -/
def dropFirstChar (s : String) : String := String.mk (s.toList.drop 1)

/-- `''.join(parts)`. -/
def joinAll (l : List String) : String := l.foldl (· ++ ·) ""

def parseNatDigitsAux : List Char → Nat → Option Nat
  | [], acc => some acc
  | c :: cs, acc =>
    if c.isDigit then parseNatDigitsAux cs (acc * 10 + (c.toNat - 48)) else Option.none

/-- An optionally-signed digit string, the shape of NCBI count fields. -/
def parseIntChars (l : List Char) : Option Int :=
  match l with
  | [] => Option.none
  | '-' :: rest =>
    if rest.isEmpty then Option.none
    else (parseNatDigitsAux rest 0).map (fun n => -(n : Int))
  | _ => (parseNatDigitsAux l 0).map (fun n => (n : Int))

/-- `int(x)` as applied to the `count` field of an esearch response;
`.error` models the `ValueError`/`TypeError` the catch-all then converts. -/
def pyIntOf : PyVal → Except Unit Int
  | PyVal.int n => Except.ok n
  | PyVal.bool b => Except.ok (if b then 1 else 0)
  | PyVal.str s =>
    match parseIntChars s.toList with
    | some n => Except.ok n
    | Option.none => Except.error ()
  | _ => Except.error ()

/-- An NCBI error dict; exceptions caught at ncbi_api.py lines 257-259 also
land here (no claim depends on the message text). -/
def ncbiErr (msg : String) : Dict := [("error", PyVal.str msg)]

/-- Lines 186-192: extract `gene_data["result"][gene_id]` from the 200
body.  `none` covers the explicit check failure and the non-dict shapes
whose indexing would raise — either way the caller produces an error
dict. -/
def ncbiGeneInfoOf (gene_id : String) (body : PyVal) : Option Dict :=
  match body with
  | PyVal.dict gene_data =>
    match alookup "result" gene_data with
    | some (PyVal.dict resultD) =>
      match alookup gene_id resultD with
      | some (PyVal.dict gene_info) => some gene_info
      | _ => Option.none
    | _ => Option.none
  | _ => Option.none

/-- Lines 226-233: parse the FASTA text into an overriding protein name and
the joined sequence; `none` when the text has at most one line (then the
defaults of lines 204-206 stand). -/
def parseFasta (fasta : String) : Option (String × String) :=
  let ls := pySplitChar (pyStrip fasta) '\n'
  if 1 < ls.length then
    match ls with
    | l0 :: rest => some (pyStrip (takeBeforeChar (dropFirstChar l0) '['), joinAll rest)
    | [] => Option.none
  else Option.none

/-- Outcome of lines 204-233 (after the esearch call was issued): an
exception escaped to the catch-all, or the optional protein id and FASTA
override together with the number of extra (efetch) calls. -/
inductive NcbiEnrich where
  | raisedE2 : Nat → NcbiEnrich
  | okE : Option String → Option (String × String) → Nat → NcbiEnrich

/-- Lines 204-233: on a 200 esearch response with a positive `count`, fetch
the first protein id's FASTA.  A missing `count`/`idlist` key after the
`esearchresult` check, or an unparsable count, raises (`int(...)`,
`KeyError`); a non-200 or key-less response just keeps the defaults.  The
modelled upstream carries `idlist` as a JSON array. -/
def ncbiEnrich (http : Http) (searchResp : HttpResp) : NcbiEnrich :=
  match searchResp with
  | HttpResp.raised => NcbiEnrich.raisedE2 0
  | HttpResp.resp st body =>
    if st = 200 then
      match body with
      | PyVal.dict sd =>
        match alookup "esearchresult" sd with
        | Option.none => NcbiEnrich.okE Option.none Option.none 0
        | some esV =>
          match esV with
          | PyVal.dict esD =>
            match alookup "count" esD with
            | Option.none => NcbiEnrich.raisedE2 0
            | some cV =>
              match pyIntOf cV with
              | Except.error _ => NcbiEnrich.raisedE2 0
              | Except.ok n =>
                if n > 0 then
                  match alookup "idlist" esD with
                  | Option.none => NcbiEnrich.raisedE2 0
                  | some ilV =>
                    match ilV with
                    | PyVal.list [] => NcbiEnrich.okE Option.none Option.none 0
                    | PyVal.list (h :: _) =>
                      let pid := pyStrOf h
                      match http.get NCBI_EFETCH_URL
                          [("db", "protein"), ("id", pid), ("rettype", "fasta"),
                           ("retmode", "text")] with
                      | HttpResp.raised => NcbiEnrich.raisedE2 1
                      | HttpResp.resp st2 fb =>
                        if st2 = 200 then NcbiEnrich.okE (some pid) (parseFasta (strOf fb)) 1
                        else NcbiEnrich.okE (some pid) Option.none 1
                    | _ => NcbiEnrich.okE Option.none Option.none 0
                else NcbiEnrich.okE Option.none Option.none 0
          | _ => NcbiEnrich.raisedE2 0
      | _ => NcbiEnrich.okE Option.none Option.none 0
    else NcbiEnrich.okE Option.none Option.none 0

/-- Lines 235-255: assemble the record returned for a gene id.  The
`organism` field must be dict-shaped for the chained `.get` (else the
construction raises and the caller produces an error dict). -/
def ncbiAssemble (gene_id : String) (gene_info : Dict) (protein_id : Option String)
    (protein_name sequence : String) : Option Dict :=
  match pyGetD gene_info "organism" (PyVal.dict []) with
  | PyVal.dict od =>
    let function_description :=
      if truthy (pyGetD gene_info "summary" (PyVal.str "")) then
        pyGetD gene_info "summary" (PyVal.str "")
      else PyVal.str (pyStrOf (pyGetD gene_info "description" (PyVal.str "")) ++
        " is a protein-coding gene.")
    some [("protein_id", PyVal.str (match protein_id with
        | some pid => if pid ≠ "" then pid else "GENE_" ++ gene_id
        | Option.none => "GENE_" ++ gene_id)),
      ("protein_name", PyVal.str protein_name),
      ("gene_symbol", pyGetD gene_info "name" (PyVal.str "")),
      ("gene_names", PyVal.list [pyGetD gene_info "name" (PyVal.str "")]),
      ("organism", pyGetD od "scientificname" (PyVal.str "")),
      ("accession", PyVal.str ("GENE_" ++ gene_id)),
      ("uniprot_id", PyVal.str ("GENE_" ++ gene_id)),
      ("length", PyVal.int (sequence.length : Int)),
      ("sequence", PyVal.str sequence),
      ("function", function_description),
      ("summary", pyGetD gene_info "description" (PyVal.str "")),
      ("subcellular_location", PyVal.list []),
      ("data_source", PyVal.str "NCBI")]
  | _ => Option.none

/-- `NCBIProteinAPI.get_protein_by_gene_id` (lines 170-259), returning the
constructed record (placeholder `GENE_<id>` accession) or an error dict,
together with the number of network calls issued (esummary, then esearch,
then possibly efetch). -/
def get_protein_by_gene_id (http : Http) (gene_id : String) : Dict × Nat :=
  match http.get NCBI_ESUMMARY_URL [("db", "gene"), ("id", gene_id), ("retmode", "json")] with
  | HttpResp.raised => (ncbiErr "exception in get_protein_by_gene_id", 1)
  | HttpResp.resp st body =>
    if st ≠ 200 then
      (ncbiErr ("NCBI Gene summary failed with status code: " ++ toString st), 1)
    else
      match ncbiGeneInfoOf gene_id body with
      | Option.none => (ncbiErr ("No gene data found for ID: " ++ gene_id), 1)
      | some gene_info =>
        match alookup "name" gene_info with
        | Option.none => (ncbiErr "exception in get_protein_by_gene_id", 1)
        | some nameV =>
          let term := pyStrOf nameV ++ "[Gene Name] AND refseq[Filter]"
          let protein_name0 :=
            pyStrip (takeBeforeChar (strOf (pyGetD gene_info "description" (PyVal.str ""))) '[')
          match ncbiEnrich http (http.get NCBI_ESEARCH_URL
              [("db", "protein"), ("term", term), ("retmode", "json"), ("retmax", "1")]) with
          | NcbiEnrich.raisedE2 extra => (ncbiErr "exception in get_protein_by_gene_id", 2 + extra)
          | NcbiEnrich.okE pid fasta extra =>
            let protein_name := match fasta with
              | some pf => pf.1
              | Option.none => protein_name0
            let sequence := match fasta with
              | some pf => pf.2
              | Option.none => ""
            match ncbiAssemble gene_id gene_info pid protein_name sequence with
            | some d => (d, 2 + extra)
            | Option.none => (ncbiErr "exception in get_protein_by_gene_id", 2 + extra)

/-- Outcome of the static-table branch of `NCBIProteinAPI.search_protein`
(lines 83-100): the wrapped search result of line 99, or fall-through to
the live search paths of lines 102-164 with the network calls already
issued. -/
inductive NcbiKnownOutcome where
  | hitResult : PyVal → Nat → NcbiKnownOutcome
  | fallthrough : Nat → NcbiKnownOutcome

def NcbiKnownOutcome.calls : NcbiKnownOutcome → Nat
  | .hitResult _ c => c
  | .fallthrough c => c

/-- The static-table branch of `NCBIProteinAPI.search_protein` (lines
83-100), the code C4 cites.  A table hit does NOT return canned data: it
maps the symbol to a gene id and calls `get_protein_by_gene_id` over the
network, wrapping the constructed record as `{"results": [...]}` when the
construction did not error; a lookup error, like a table miss, falls
through to the live search paths (not modelled — by then any table-hit
network calls were already issued).  The inner `COMMON_GENE_IDS` lookup
always succeeds on a hit, since lines 19-54 give the two tables the same
keys (its miss arm is dead code). -/
def ncbi_search_protein_known (http : Http) (query : String) : NcbiKnownOutcome :=
  let cleaned := pyUpper (pyStrip query)
  match alookup cleaned NCBI_COMMON_PROTEINS with
  | Option.none => NcbiKnownOutcome.fallthrough 0
  | some _ =>
    match alookup cleaned COMMON_GENE_IDS with
    | Option.none => NcbiKnownOutcome.fallthrough 0
    | some gene_id =>
      let pd := get_protein_by_gene_id http gene_id
      if hasError pd.1 then NcbiKnownOutcome.fallthrough pd.2
      else NcbiKnownOutcome.hitResult
        (PyVal.dict [("results", PyVal.list [PyVal.dict pd.1])]) pd.2

/-! ## Disease/drug adapter (`disease_drug_api.py`). -/

/-- `DiseaseDrugAPI.COMMON_DISEASES` (lines 11-45), keys in source order;
each value is the canned disease list. -/
def diseaseEntry (dname ddesc : String) (score10 : Int) : PyVal :=
  PyVal.dict [("disease_name", PyVal.str dname), ("description", PyVal.str ddesc),
    ("score", PyVal.int score10)]

def COMMON_DISEASES : List (String × PyVal) :=
  [("TP53", PyVal.list
      [diseaseEntry "Li-Fraumeni syndrome"
        "A rare autosomal dominant syndrome predisposing to multiple forms of cancer." 9,
       diseaseEntry "Colorectal cancer"
        "A common malignancy associated with genetic and environmental risk factors." 8,
       diseaseEntry "Breast cancer" "A common malignancy in women." 7]),
   ("BRCA1", PyVal.list
      [diseaseEntry "Hereditary breast and ovarian cancer syndrome"
        "An autosomal dominant syndrome associated with increased risk of breast and ovarian cancer." 9,
       diseaseEntry "Breast cancer" "A common malignancy in women." 9,
       diseaseEntry "Ovarian cancer" "A malignancy of the ovaries." 8]),
   ("BRCA2", PyVal.list
      [diseaseEntry "Hereditary breast and ovarian cancer syndrome"
        "An autosomal dominant syndrome associated with increased risk of breast and ovarian cancer." 9,
       diseaseEntry "Pancreatic cancer" "A malignant neoplasm of the pancreas." 8,
       diseaseEntry "Fanconi anemia" "A rare genetic disorder affecting bone marrow." 7]),
   ("EGFR", PyVal.list
      [diseaseEntry "Non-small cell lung cancer"
        "A type of lung cancer that is the most common form of lung cancer." 9,
       diseaseEntry "Glioblastoma" "A highly aggressive brain tumor." 8,
       diseaseEntry "Colorectal cancer"
        "A common malignancy associated with genetic and environmental risk factors." 7]),
   ("INS", PyVal.list
      [diseaseEntry "Diabetes mellitus"
        "A metabolic disorder characterized by hyperglycemia resulting from defects in insulin secretion, insulin action, or both." 9,
       diseaseEntry "Hyperinsulinemic hypoglycemia"
        "A condition characterized by abnormally high levels of insulin in the blood, causing hypoglycemia." 8]),
   ("APP", PyVal.list
      [diseaseEntry "Alzheimer's disease"
        "A progressive neurodegenerative disorder characterized by memory loss and cognitive decline." 9,
       diseaseEntry "Cerebral amyloid angiopathy"
        "A condition in which amyloid deposits form in the walls of blood vessels of the brain." 8]),
   ("APOE", PyVal.list
      [diseaseEntry "Alzheimer's disease"
        "A progressive neurodegenerative disorder characterized by memory loss and cognitive decline." 9,
       diseaseEntry "Hyperlipidemia" "Abnormally elevated levels of lipids in the blood." 8,
       diseaseEntry "Cardiovascular disease" "Diseases affecting the heart and blood vessels." 7])]

def DISGENET_API_URL : String := "https://www.disgenet.org/api"

/-- A needle is a prefix of a haystack (character lists). -/
def prefixMatch : List Char → List Char → Bool
  | [], _ => true
  | _ :: _, [] => false
  | a :: as, b :: bs => a == b && prefixMatch as bs

/-- A needle occurs contiguously in a haystack (character lists). -/
def charsHas (needle : List Char) : List Char → Bool
  | [] => prefixMatch needle []
  | b :: bs => prefixMatch needle (b :: bs) || charsHas needle bs

/-- Python's substring containment `needle in hay`. -/
def pyIn (needle hay : String) : Bool := charsHas needle.toList hay.toList

/-- The fuzzy-fallback scan of lines 107-113 / 123-129: the first table key
that is a case-insensitive substring of the query or vice versa. -/
def fuzzyFind (table : List (String × PyVal)) (gene_symbol : String) :
    Option (String × PyVal) :=
  table.find? (fun kv =>
    pyIn (pyLower kv.1) (pyLower gene_symbol) || pyIn (pyLower gene_symbol) (pyLower kv.1))

/-- The fuzzy-fallback result of lines 107-119 / 123-135: the first fuzzy
match's canned diseases relabelled under the queried gene, or the
explicitly-empty (non-error) result when no key matches. -/
def diseaseFuzzyResult (gene_symbol : String) : PyVal × Nat :=
  match fuzzyFind COMMON_DISEASES gene_symbol with
  | some kv =>
    (PyVal.dict [("gene_symbol", PyVal.str gene_symbol), ("diseases", kv.2)], 1)
  | Option.none =>
    (PyVal.dict [("gene_symbol", PyVal.str gene_symbol), ("diseases", PyVal.list [])], 1)

/-- `DiseaseDrugAPI.get_disease_associations` (lines 83-135), returning the
result and the number of network calls issued.  Static-table hits return the
canned data with no network call; on a failed live call (non-200 status or a
raised request) the fuzzy fallback runs. -/
def get_disease_associations (http : Http) (gene_symbol : String) : PyVal × Nat :=
  match alookup (pyUpper gene_symbol) COMMON_DISEASES with
  | some ds =>
    (PyVal.dict [("gene_symbol", PyVal.str gene_symbol), ("diseases", ds)], 0)
  | Option.none =>
    match http.get (DISGENET_API_URL ++ "/gda/gene/" ++ gene_symbol) [] with
    | HttpResp.raised => diseaseFuzzyResult gene_symbol
    | HttpResp.resp status body =>
      if status = 200 then (body, 1) else diseaseFuzzyResult gene_symbol

/-! ## STRING interaction adapter (`interaction_api.py` lines 36-54). -/

def INTERACTIONS_URL : String := "https://string-db.org/api/11.0/json/interactions"

/-- The POST form data of lines 43-47; `required_score` is sent verbatim,
whatever value the caller put in that position. -/
def interactionParams (string_id : String) (required_score : PyVal) (limit : Int) :
    List (String × PyVal) :=
  [("identifiers", PyVal.str string_id), ("required_score", required_score),
   ("limit", PyVal.int limit)]

/-- `ProteinInteractionAPI.get_interactions`: a falsy `string_id` returns an
error dict, a 200 returns the raw parsed JSON, any other status an error
dict; the method has no try/except, so a raised request propagates to the
caller. -/
def get_interactions (http : Http) (string_id : String) (required_score : PyVal)
    (limit : Int) : SubResult :=
  if string_id = "" then SubResult.ok (PyVal.dict [("error", PyVal.str "Invalid STRING ID")])
  else
    match http.post INTERACTIONS_URL (interactionParams string_id required_score limit) with
    | HttpResp.raised => SubResult.raised
    | HttpResp.resp status body =>
      if status = 200 then SubResult.ok body
      else SubResult.ok (PyVal.dict
        [("error", PyVal.str ("Failed to retrieve interactions: " ++ toString status))])

/-- `protein_data_service.py` line 125 calls
`self.interaction_api.get_interactions(gene_symbol, uniprot_id)`: the gene
symbol lands in the `string_id` parameter and the UniProt id in the
`required_score` parameter position. -/
def envWithStringApi (http : Http) (e : Env) : Env :=
  { e with interactionsCall := fun gene_symbol uniprot_id =>
      get_interactions http gene_symbol (PyVal.str uniprot_id) 10 }

/-! ## Chat/Q&A formatter (`protein_data_service.py` lines 169-280).
Python exceptions inside the formatter are modelled with `Except Unit`: any
raise lands in the catch-all of lines 275-280. -/

/-- `', '.join(parts)`. -/
def joinComma : List String → String
  | [] => ""
  | [a] => a
  | a :: rest => a ++ ", " ++ joinComma rest

/-- First-occurrence deduplication, standing in for Python's `set(...)`
iteration (whose order is unspecified; no claim depends on it). -/
def dedupAux : List String → List String → List String
  | [], _ => []
  | a :: rest, seen => if seen.contains a then dedupAux rest seen else a :: dedupAux rest (a :: seen)

def dedupKeep (l : List String) : List String := dedupAux l []

/-- `.get(...)` attribute access on an arbitrary value: raises unless the
value is a dict. -/
def pyDotGetE (v : PyVal) (k : String) (dflt : PyVal) : Except Unit PyVal :=
  match v with
  | PyVal.dict d => Except.ok (pyGetD d k dflt)
  | _ => Except.error ()

/-- `v[k]` subscription: raises unless the value is a dict holding the key. -/
def pyIndexE (v : PyVal) (k : String) : Except Unit PyVal :=
  match v with
  | PyVal.dict d =>
    match alookup k d with
    | some x => Except.ok x
    | Option.none => Except.error ()
  | _ => Except.error ()

/-- A value used as a dict (`.get` with default). -/
def asDictE : PyVal → Except Unit Dict
  | PyVal.dict d => Except.ok d
  | _ => Except.error ()

/-- A value iterated as a list.  A truthy non-list value would also blow up
a few expressions later in Python (indexing its elements), so the outcome —
the catch-all error answer — is the same. -/
def asListE : PyVal → Except Unit (List PyVal)
  | PyVal.list l => Except.ok l
  | _ => Except.error ()

/-- A value `', '.join` requires to be a string (TypeError otherwise). -/
def asStrE : PyVal → Except Unit String
  | PyVal.str s => Except.ok s
  | _ => Except.error ()

/-- Lines 191-193: the `structure_text` sentence. -/
def structTextOf (structuresV : PyVal) : Except Unit String :=
  if truthy structuresV then do
    let sl ← asListE structuresV
    let sources ← sl.mapM (fun s => do asStrE (← pyIndexE s "source"))
    pure ("This protein has " ++ toString sl.length ++ " known structures from " ++
      joinComma (dedupKeep sources) ++ ".")
  else pure ""

/-- Lines 197-200: the `disease_text` sentence. -/
def diseaseTextOf (diseasesV : PyVal) : Except Unit String :=
  if truthy diseasesV then do
    let dl ← asListE diseasesV
    let names ← (dl.take 3).mapM (fun d => do asStrE (← pyIndexE d "disease_name"))
    pure ("This protein is associated with diseases such as " ++ joinComma names ++ ".")
  else pure ""

/-- Lines 204-207: the `drug_text` sentence. -/
def drugTextOf (drugsV : PyVal) : Except Unit String :=
  if truthy drugsV then do
    let dl ← asListE drugsV
    let names ← (dl.take 3).mapM (fun d => do asStrE (← pyIndexE d "name"))
    pure ("Drugs that target this protein include " ++ joinComma names ++ ".")
  else pure ""

/-- The values lines 182-207 compute before the keyword routing. -/
structure ChatPre where
  protein_name : String
  gene_symbol : String
  functionV : PyVal
  summaryV : PyVal
  structuresV : PyVal
  structure_text : String
  diseasesV : PyVal
  disease_text : String
  drugsV : PyVal
  drug_text : String

/-- Lines 182-207. -/
def chatPre (record : CombinedRecord) : Except Unit ChatPre := do
  let pinfo := record.basic_info
  let structuresV ← pyDotGetE record.structureInfo "structures" (PyVal.list [])
  let structure_text ← structTextOf structuresV
  let diseasesV ← pyDotGetE record.diseaseDrugInfo "diseases" (PyVal.list [])
  let disease_text ← diseaseTextOf diseasesV
  let drugsV ← pyDotGetE record.diseaseDrugInfo "drugs" (PyVal.list [])
  let drug_text ← drugTextOf drugsV
  pure { protein_name := pyStrOf (pyGetD pinfo "protein_name" (PyVal.str ""))
         gene_symbol := pyStrOf (pyGetD pinfo "gene_symbol" (PyVal.str ""))
         functionV := pyGetD pinfo "function" (PyVal.str "")
         summaryV := pyGetD pinfo "summary" (PyVal.str "")
         structuresV := structuresV, structure_text := structure_text
         diseasesV := diseasesV, disease_text := disease_text
         drugsV := drugsV, drug_text := drug_text }

/-- Line 216. -/
def renderFunctionQ (pre : ChatPre) : Except Unit String :=
  pure ("The function of " ++ pre.protein_name ++ " (" ++ pre.gene_symbol ++ ") is: " ++
    pyStrOf pre.functionV)

/-- Lines 218-224. -/
def renderDiseaseQ (pre : ChatPre) : Except Unit String :=
  if truthy pre.diseasesV then do
    let dl ← asListE pre.diseasesV
    (dl.take 3).foldlM (fun acc d => do
        let dd ← asDictE d
        match alookup "disease_name" dd with
        | Option.none => Except.error ()
        | some nm =>
          pure (acc ++ "\n- " ++ pyStrOf nm ++ ": " ++
            pyStrOf (pyGetD dd "description" (PyVal.str "No description available"))))
      (pre.protein_name ++ " (" ++ pre.gene_symbol ++
        ") is associated with several diseases, including: ")
  else
    pure ("I don't have information about diseases associated with " ++
      pre.protein_name ++ " (" ++ pre.gene_symbol ++ ").")

/-- Lines 226-232. -/
def renderDrugQ (pre : ChatPre) : Except Unit String :=
  if truthy pre.drugsV then do
    let dl ← asListE pre.drugsV
    (dl.take 3).foldlM (fun acc d => do
        let dd ← asDictE d
        match alookup "name" dd with
        | Option.none => Except.error ()
        | some nm =>
          pure (acc ++ "\n- " ++ pyStrOf nm ++ ": " ++
            pyStrOf (pyGetD dd "mechanism" (PyVal.str "Mechanism unknown"))))
      ("There are several drugs that target " ++ pre.protein_name ++ " (" ++
        pre.gene_symbol ++ "), including: ")
  else
    pure ("I don't have information about drugs that target " ++ pre.protein_name ++
      " (" ++ pre.gene_symbol ++ ").")

/-- Lines 234-240. -/
def renderStructureQ (pre : ChatPre) : Except Unit String :=
  if truthy pre.structuresV then do
    let sl ← asListE pre.structuresV
    (sl.take 3).foldlM (fun acc s => do
        let sd ← asDictE s
        match alookup "id" sd, alookup "source" sd with
        | some idv, some srcv =>
          pure (acc ++ "\n- " ++ pyStrOf idv ++ " from " ++ pyStrOf srcv ++ " (" ++
            pyStrOf (pyGetD sd "method" (PyVal.str "Method unknown")) ++ ")")
        | _, _ => Except.error ())
      (pre.protein_name ++ " (" ++ pre.gene_symbol ++ ") has " ++
        toString sl.length ++ " known structures: ")
  else
    pure ("I don't have information about the 3D structure of " ++ pre.protein_name ++
      " (" ++ pre.gene_symbol ++ ").")

/-- Lines 242-249: the interaction branch re-reads the interactions section
with `.get`, which raises when that section holds a raw list. -/
def renderInteractionQ (record : CombinedRecord) (pre : ChatPre) : Except Unit String := do
  let interactionsV ← pyDotGetE record.interactionInfo "interactions" (PyVal.list [])
  if truthy interactionsV then do
    let il ← asListE interactionsV
    (il.take 3).foldlM (fun acc i => do
        let idd ← asDictE i
        pure (acc ++ "\n- " ++
          pyStrOf (pyGetD idd "interactor_name" (PyVal.str "Unknown protein"))))
      (pre.protein_name ++ " (" ++ pre.gene_symbol ++
        ") interacts with several proteins, including: ")
  else
    pure ("I don't have information about proteins that interact with " ++
      pre.protein_name ++ " (" ++ pre.gene_symbol ++ ").")

/-- Lines 251-265. -/
def renderGeneralQ (pre : ChatPre) : Except Unit String :=
  pure (("About " ++ pre.protein_name ++ " (" ++ pre.gene_symbol ++ "): " ++
      pyStrOf pre.summaryV ++ "\n\n") ++
    (if truthy pre.functionV then "Function: " ++ pyStrOf pre.functionV ++ "\n\n" else "") ++
    (if pre.structure_text ≠ "" then pre.structure_text ++ "\n\n" else "") ++
    (if pre.disease_text ≠ "" then pre.disease_text ++ "\n\n" else "") ++
    (if pre.drug_text ≠ "" then pre.drug_text else ""))

/-- Lines 267-269: the trailing source-attribution sentence. -/
def attributionOf (record : CombinedRecord) : String :=
  "\n\nThis information was retrieved from " ++ pyStrOf record.data_source ++ "."

/-- The branch chain of lines 215-265 written exactly as the source orders
its `if`/`elif` keyword tests. -/
def chatBranch (record : CombinedRecord) (pre : ChatPre) (q : String) : Except Unit String :=
  if pyIn "function" q || pyIn "do" q || pyIn "role" q then renderFunctionQ pre
  else if pyIn "disease" q || pyIn "condition" q || pyIn "disorder" q then renderDiseaseQ pre
  else if pyIn "drug" q || pyIn "medication" q || pyIn "treatment" q then renderDrugQ pre
  else if pyIn "structure" q || pyIn "3d" q then renderStructureQ pre
  else if pyIn "interaction" q || pyIn "partner" q || pyIn "bind" q then
    renderInteractionQ record pre
  else renderGeneralQ pre

/-- Lines 182-273: the whole try-body of `get_protein_chat_response` once a
record (not an error) came back from `get_protein_data`. -/
def chatBody (record : CombinedRecord) (user_query : String) : Except Unit String :=
  match chatPre record with
  | Except.error e => Except.error e
  | Except.ok pre =>
    match chatBranch record pre (pyLower user_query) with
    | Except.error e => Except.error e
    | Except.ok body => Except.ok (body ++ attributionOf record)

/-- `ProteinDataService.get_protein_chat_response` for a resolved record:
the try-body, with any exception landing in the generic answer of lines
275-280 (the `query` interpolated there equals the record's query field). -/
def get_protein_chat_response (record : CombinedRecord) (user_query : String) : String :=
  match chatBody record user_query with
  | Except.ok t => t
  | Except.error _ =>
    "I encountered an error while trying to answer your question about " ++
      record.query ++ ". Please try again or ask about a different protein."

/-- The six answer categories of the Q&A routing. -/
inductive QCategory where
  | functionQ | diseaseQ | drugQ | structureQ | interactionQ | generalQ

/-- The spec's description of the routing: a fixed ordered list of keyword
sets. -/
def keywordSets : List (List String × QCategory) :=
  [(["function", "do", "role"], QCategory.functionQ),
   (["disease", "condition", "disorder"], QCategory.diseaseQ),
   (["drug", "medication", "treatment"], QCategory.drugQ),
   (["structure", "3d"], QCategory.structureQ),
   (["interaction", "partner", "bind"], QCategory.interactionQ)]

/-- First keyword set (in list order) with a member occurring in the
question; ties broken by list order, general summary when none matches. -/
def firstMatchCat : List (List String × QCategory) → String → QCategory
  | [], _ => QCategory.generalQ
  | kwc :: rest, q => if kwc.1.any (fun kw => pyIn kw q) then kwc.2 else firstMatchCat rest q

/-- Spec-side router: lower-case the question, take the first keyword set
with a member occurring in it, fall back to the general summary. -/
def specRoute (question : String) : QCategory :=
  firstMatchCat keywordSets (pyLower question)

/-- The renderer each category maps to. -/
def renderFor (record : CombinedRecord) (pre : ChatPre) : QCategory → Except Unit String
  | QCategory.functionQ => renderFunctionQ pre
  | QCategory.diseaseQ => renderDiseaseQ pre
  | QCategory.drugQ => renderDrugQ pre
  | QCategory.structureQ => renderStructureQ pre
  | QCategory.interactionQ => renderInteractionQ record pre
  | QCategory.generalQ => renderGeneralQ pre

/-- The spec-shaped formatter: route first, then render, then attribute. -/
def chatBodySpec (record : CombinedRecord) (user_query : String) : Except Unit String :=
  match chatPre record with
  | Except.error e => Except.error e
  | Except.ok pre =>
    match renderFor record pre (specRoute user_query) with
    | Except.error e => Except.error e
    | Except.ok body => Except.ok (body ++ attributionOf record)

/-- `a.endsWith b` via the character lists (used to state the attribution
property). -/
def suffixMatch (suffix s : String) : Bool :=
  prefixMatch suffix.toList.reverse s.toList.reverse

/-! ## Concrete worlds used by the witnesses and counterexamples. -/

/-- An HTTP world whose every endpoint answers 500. -/
def http500 : Http :=
  { get := fun _ _ => HttpResp.resp 500 (PyVal.dict [])
    post := fun _ _ => HttpResp.resp 500 (PyVal.dict []) }

/-- An HTTP world where GETs fail but POSTs answer 200 with a raw STRING-api
interaction list. -/
def httpList : Http :=
  { get := fun _ _ => HttpResp.resp 500 (PyVal.dict [])
    post := fun _ _ =>
      HttpResp.resp 200 (PyVal.list [PyVal.dict [("preferredName_B", PyVal.str "MDM2")]]) }

/-- An HTTP world where GETs answer 200 with a small protein dict. -/
def httpGood : Http :=
  { get := fun _ _ =>
      HttpResp.resp 200 (PyVal.dict [("primaryAccession", PyVal.str "P04637")])
    post := fun _ _ => HttpResp.resp 500 (PyVal.dict []) }

/-- An HTTP world answering the three NCBI eutils endpoints with a
well-formed TP53 gene record, search hit and FASTA. -/
def httpNcbi : Http :=
  { get := fun url _ =>
      if url = NCBI_ESUMMARY_URL then
        HttpResp.resp 200 (PyVal.dict [("result", PyVal.dict [("7157", PyVal.dict
          [("name", PyVal.str "TP53"),
           ("description", PyVal.str "tumor protein p53"),
           ("summary", PyVal.str "This gene encodes a tumor suppressor protein."),
           ("organism", PyVal.dict [("scientificname", PyVal.str "Homo sapiens")])])])])
      else if url = NCBI_ESEARCH_URL then
        HttpResp.resp 200 (PyVal.dict [("esearchresult", PyVal.dict
          [("count", PyVal.str "1"), ("idlist", PyVal.list [PyVal.str "1234"])])])
      else if url = NCBI_EFETCH_URL then
        HttpResp.resp 200
          (PyVal.str ">NP_000537.3 cellular tumor antigen p53 [Homo sapiens]\nMEEPQSDPSV")
      else HttpResp.resp 500 (PyVal.dict [])
    post := fun _ _ => HttpResp.resp 500 (PyVal.dict []) }

/-- The error dict both identity adapters return on a full miss. -/
def errDict : Dict := [("error", PyVal.str "No protein found")]

/-- A world where every adapter errors or raises. -/
def envFail : Env :=
  { uniprotSummary := fun _ => errDict
    ncbiSummary := fun _ => errDict
    uniprotMapping := fun _ => MapResult.raised
    structureSummary := fun _ _ => SubResult.raised
    interactionsCall := fun _ _ => SubResult.raised
    diseaseDrugCall := fun _ _ => SubResult.raised }

/-- A UniProt-shaped identity summary for TP53. -/
def uniInfoOk : Dict :=
  [("accession", PyVal.str "P04637"), ("gene_symbol", PyVal.str "TP53"),
   ("function", PyVal.str "Tumor suppressor")]

/-- UniProt succeeds, everything else fails. -/
def envOkU : Env := { envFail with uniprotSummary := fun _ => uniInfoOk }

/-- UniProt succeeds but with a `GENE_` placeholder accession, and the
mapping lookup raises. -/
def envGene : Env :=
  { envFail with uniprotSummary := fun _ =>
      [("accession", PyVal.str "GENE_7157"), ("gene_symbol", PyVal.str "TP53")] }

/-- UniProt succeeds with `function="X"` and an empty summary; NCBI errors. -/
def envFnOnly : Env :=
  { envFail with uniprotSummary := fun _ =>
      [("accession", PyVal.str "P04637"), ("function", PyVal.str "X"),
       ("summary", PyVal.str "")] }

/-- An NCBI-shaped identity summary for TP53 (placeholder accession). -/
def ncbiInfoOk : Dict :=
  [("uniprot_id", PyVal.str "GENE_7157"), ("protein_name", PyVal.str "tumor protein p53"),
   ("gene_symbol", PyVal.str "TP53"), ("organism", PyVal.str "Homo sapiens"),
   ("function", PyVal.str ""), ("summary", PyVal.str "Tumor protein p53"),
   ("data_source", PyVal.str "NCBI")]

/-- Both identity adapters succeed. -/
def envBothOk : Env := { envOkU with ncbiSummary := fun _ => ncbiInfoOk }

/-- A fully well-formed record, used to exercise the chat formatter. -/
def recSimple : CombinedRecord :=
  { query := "TP53"
    basic_info := [("protein_name", PyVal.str "Cellular tumor antigen p53"),
      ("gene_symbol", PyVal.str "TP53"), ("function", PyVal.str "Acts as a tumor suppressor."),
      ("summary", PyVal.str "Tumor protein p53")]
    structureInfo := emptyStructures
    interactionInfo := emptyInteractions
    diseaseDrugInfo := emptyDiseaseDrug
    data_source := PyVal.str "UniProt"
    ai_generated := false }

/-- Truthiness of a dict's field, Python's `bool(d.get(k))`. -/
def truthyAt (d : Dict) (k : String) : Bool := truthy (pyGetNone d k)

/-- The `source` field is missing or falsy after `.lower()` (line 28's
`if not source:`). -/
def sourceMissing (structure_info : Dict) : Bool :=
  pyLower (strOf ((alookup "source" structure_info).getD (PyVal.str ""))) = ""
theorem alookup_aset_self {β : Type} (k : String) (v : β) (d : List (String × β)) :
    alookup k (aset k v d) = some v := by
  induction d with
  | nil => simp [aset, alookup]
  | cons hd tl ih =>
    obtain ⟨k', v'⟩ := hd
    by_cases h : k' = k <;> simp [aset, alookup, h, ih]

theorem alookup_aset_ne {β : Type} {k k' : String} (v : β) (d : List (String × β))
    (h : k' ≠ k) : alookup k' (aset k v d) = alookup k' d := by
  have h' : k ≠ k' := fun hh => h hh.symm
  induction d with
  | nil => simp [aset, alookup, h']
  | cons hd tl ih =>
    obtain ⟨k0, v0⟩ := hd
    by_cases h0 : k0 = k
    · subst h0
      simp [aset, alookup, h, h']
    · by_cases h1 : k0 = k' <;> simp [aset, alookup, h, h0, h1, ih]

theorem mergeSecondary_keeps_truthy (sec : Dict) :
    ∀ (acc : Dict) (k : String) (v : PyVal), alookup k acc = some v → truthy v = true →
      alookup k (mergeSecondary acc sec) = some v := by
  induction sec with
  | nil => intro acc k v h _; simpa [mergeSecondary] using h
  | cons kv rest ih =>
    intro acc k v h hv
    have hstep : alookup k (mergeStep acc kv) = some v := by
      unfold mergeStep
      by_cases hk : kv.1 = k
      · subst hk
        rw [h]
        simp only [hv, if_true]
        exact h
      · cases hl : alookup kv.1 acc with
        | none => rw [alookup_aset_ne _ _ (fun hh => hk hh.symm)]; exact h
        | some w =>
          by_cases hw : truthy w = true
          · simp [hw]; exact h
          · simp [hw]
            rw [alookup_aset_ne _ _ (fun hh => hk hh.symm)]
            exact h
    have := ih (mergeStep acc kv) k v hstep hv
    simpa [mergeSecondary] using this

theorem backfill_keeps_truthy (p sec : Dict) (k : String) (v : PyVal)
    (h : alookup k p = some v) (hv : truthy v = true) :
    alookup k (backfill p sec) = some v := by
  unfold backfill
  have keep : ∀ (d : Dict) (key : String) (w : PyVal),
      alookup k d = some v →
      alookup k (if !truthy (pyGetNone d key) && truthy w then aset key w d else d) = some v := by
    intro d key w hd
    by_cases hk : key = k
    · subst hk
      have : pyGetNone d key = v := by simp [pyGetNone, hd]
      simp [this, hv, hd]
    · split
      · rw [alookup_aset_ne _ _ (fun hh => hk hh.symm)]; exact hd
      · exact hd
  have keepSelf : ∀ (d : Dict) (key src : String),
      alookup k d = some v →
      alookup k (if truthy (pyGetNone d src) && !truthy (pyGetNone d key) then
        aset key (pyGetNone d src) d else d) = some v := by
    intro d key src hd
    by_cases hk : key = k
    · subst hk
      have : pyGetNone d key = v := by simp [pyGetNone, hd]
      simp [this, hv, hd]
    · split
      · rw [alookup_aset_ne _ _ (fun hh => hk hh.symm)]; exact hd
      · exact hd
  exact keepSelf _ _ _ (keepSelf _ _ _ (keep _ _ _ (keep _ _ _ h)))

/-- Secondary data, and the backfill, never overwrite a truthy primary field.
The shared engine behind claim C6 and the `data_source` bookkeeping. -/
theorem enhance_keeps_truthy (p : Dict) (sec : Option Dict) (k : String) (v : PyVal)
    (h : alookup k p = some v) (hv : truthy v = true) :
    alookup k (enhance p sec) = some v := by
  unfold enhance
  cases sec with
  | none => exact h
  | some s =>
    by_cases hc : (!s.isEmpty && !hasError s) = true
    · simp only [hc, if_true]
      exact backfill_keeps_truthy _ s k v (mergeSecondary_keeps_truthy s p k v h hv) hv
    · simp only [eq_false_of_ne_true hc, if_false]
      exact h


/-! ## Service-level supporting lemmas. -/

theorem sectionOf_absorbed (res : SubResult) (empty : PyVal)
    (h : SubResult.absorbed res = true) : sectionOf res empty = empty := by
  cases res with
  | raised => rfl
  | ok v =>
    simp only [SubResult.absorbed] at h
    simp [sectionOf, h]

theorem sectionOf_ok (v : PyVal) (empty : PyVal) (h : isErrDict v = false) :
    sectionOf (SubResult.ok v) empty = v := by
  simp [sectionOf, h]

theorem selectPrimary_none_iff (u n : Dict) :
    selectPrimary u n = Option.none ↔ (hasError u = true ∧ hasError n = true) := by
  unfold selectPrimary
  cases hu : hasError u <;> cases hn : hasError n <;> simp

theorem selectPrimary_uniprot (u n : Dict) (hu : hasError u = false) :
    selectPrimary u n = some (aset "data_source" (PyVal.str "UniProt") u, some n) := by
  simp [selectPrimary, hu]

theorem selectPrimary_ncbi (u n : Dict) (hu : hasError u = true) (hn : hasError n = false) :
    selectPrimary u n = some (aset "data_source" (PyVal.str "NCBI") n, Option.none) := by
  simp [selectPrimary, hu, hn]

theorem gpd_miss_err (env : Env) (cache : Cache) (q : String)
    (hmiss : alookup (cacheKey q) cache = Option.none)
    (hsel : selectPrimary (env.uniprotSummary q) (env.ncbiSummary q) = Option.none) :
    get_protein_data env cache q =
      (GpdResult.errRes ("No protein data found for '" ++ q ++
          "' in either UniProt or NCBI databases.") q, cache,
        { uniprotN := 1, ncbiN := 1, mappingN := 0, structureN := 0,
          interactionN := 0, diseaseDrugN := 0 }) := by
  unfold get_protein_data gpdCore
  rw [hmiss, hsel]

theorem gpd_miss_ok (env : Env) (cache : Cache) (q : String) (p0 : Dict) (sec : Option Dict)
    (hmiss : alookup (cacheKey q) cache = Option.none)
    (hsel : selectPrimary (env.uniprotSummary q) (env.ncbiSummary q) = some (p0, sec)) :
    get_protein_data env cache q =
      (GpdResult.okRes (assembleRecord env q p0 sec),
        aset (cacheKey q) (assembleRecord env q p0 sec) cache,
        assembleCalls env q p0) := by
  unfold get_protein_data gpdCore
  rw [hmiss, hsel]

theorem resolveMapping_keeps (env : Env) (p : Dict) (uid gene k : String)
    (h1 : k ≠ "accession") (h2 : k ≠ "uniprot_id") :
    alookup k (resolveMapping env p uid gene).2.1 = alookup k p := by
  unfold resolveMapping
  split
  · split
    · rfl
    · split
      · simp only
        rw [alookup_aset_ne _ _ h2, alookup_aset_ne _ _ h1]
      · rfl
  · rfl

theorem assemble_data_source (env : Env) (q : String) (p0 : Dict) (sec : Option Dict)
    (v : PyVal) (hds : alookup "data_source" p0 = some v) (hv : truthy v = true) :
    (assembleRecord env q p0 sec).data_source = v := by
  unfold assembleRecord
  simp only
  have h1 : alookup "data_source" (resolvedPair env p0 q).2.1 = some v := by
    unfold resolvedPair
    rw [resolveMapping_keeps env p0 _ _ _ (by decide) (by decide)]
    exact hds
  have h2 := enhance_keeps_truthy _ sec _ _ h1 hv
  simp [pyGetD, h2]

theorem resolvedIdOf_eq (env : Env) (q : String) (p0 : Dict) (sec : Option Dict)
    (hsel : selectPrimary (env.uniprotSummary q) (env.ncbiSummary q) = some (p0, sec)) :
    resolvedIdOf env q = (resolvedPair env p0 q).1 := by
  unfold resolvedIdOf
  rw [hsel]

theorem geneSymbolOf_eq (env : Env) (q : String) (p0 : Dict) (sec : Option Dict)
    (hsel : selectPrimary (env.uniprotSummary q) (env.ncbiSummary q) = some (p0, sec)) :
    geneSymbolOf env q = extractGene p0 q := by
  unfold geneSymbolOf
  rw [hsel]

theorem assemble_absorbed_sections (env : Env) (q : String) (p0 : Dict) (sec : Option Dict) :
    (SubResult.absorbed (env.structureSummary (resolvedPair env p0 q).1 (extractGene p0 q)) = true →
       (assembleRecord env q p0 sec).structureInfo = emptyStructures) ∧
    (SubResult.absorbed (env.interactionsCall (extractGene p0 q) (resolvedPair env p0 q).1) = true →
       (assembleRecord env q p0 sec).interactionInfo = emptyInteractions) ∧
    (SubResult.absorbed (env.diseaseDrugCall (extractGene p0 q) (resolvedPair env p0 q).1) = true →
       (assembleRecord env q p0 sec).diseaseDrugInfo = emptyDiseaseDrug) := by
  unfold assembleRecord
  refine ⟨?_, ?_, ?_⟩ <;> intro h
  · simp only
    split
    · exact sectionOf_absorbed _ _ h
    · rfl
  · exact sectionOf_absorbed _ _ h
  · exact sectionOf_absorbed _ _ h

/-- C1: `get_protein_data` returns a terminal error result if and only if
both identity adapters returned errors; otherwise the record's
`data_source` is `"UniProt"` exactly when the UniProt adapter did not
error, and `"NCBI"` exactly when UniProt errored but NCBI did not; a
failing (raising or error-returning) structure, interaction or disease-drug
sub-adapter never produces a top-level error and leaves its section in the
empty shape. -/
theorem c1_primary_selection_and_error_absorption
    (env : Env) (cache : Cache) (q : String)
    (hmiss : alookup (cacheKey q) cache = Option.none) :
    ((∃ msg, (get_protein_data env cache q).1 = GpdResult.errRes msg q) ↔
      (hasError (env.uniprotSummary q) = true ∧ hasError (env.ncbiSummary q) = true)) ∧
    (∀ r, (get_protein_data env cache q).1 = GpdResult.okRes r →
      ((r.data_source = PyVal.str "UniProt" ↔ hasError (env.uniprotSummary q) = false) ∧
       (r.data_source = PyVal.str "NCBI" ↔
         (hasError (env.uniprotSummary q) = true ∧ hasError (env.ncbiSummary q) = false)) ∧
       (SubResult.absorbed (env.structureSummary (resolvedIdOf env q) (geneSymbolOf env q)) = true →
         r.structureInfo = emptyStructures) ∧
       (SubResult.absorbed (env.interactionsCall (geneSymbolOf env q) (resolvedIdOf env q)) = true →
         r.interactionInfo = emptyInteractions) ∧
       (SubResult.absorbed (env.diseaseDrugCall (geneSymbolOf env q) (resolvedIdOf env q)) = true →
         r.diseaseDrugInfo = emptyDiseaseDrug))) := by
  cases hu : hasError (env.uniprotSummary q) with
  | false =>
    have hsel := selectPrimary_uniprot (env.uniprotSummary q) (env.ncbiSummary q) hu
    have hg := gpd_miss_ok env cache q _ _ hmiss hsel
    constructor
    · constructor
      · rintro ⟨m, hm⟩
        rw [hg] at hm
        cases hm
      · rintro ⟨h1, -⟩
        cases h1
    · intro r hr
      rw [hg] at hr
      cases hr
      have hds : (assembleRecord env q
          (aset "data_source" (PyVal.str "UniProt") (env.uniprotSummary q))
          (some (env.ncbiSummary q))).data_source = PyVal.str "UniProt" :=
        assemble_data_source _ _ _ _ _ (alookup_aset_self _ _ _) rfl
      rw [resolvedIdOf_eq env q _ _ hsel, geneSymbolOf_eq env q _ _ hsel]
      have habs := assemble_absorbed_sections env q
        (aset "data_source" (PyVal.str "UniProt") (env.uniprotSummary q))
        (some (env.ncbiSummary q))
      refine ⟨?_, ?_, habs.1, habs.2.1, habs.2.2⟩
      · simp [hds]
      · rw [hds]
        simp [hu]
  | true =>
    cases hn : hasError (env.ncbiSummary q) with
    | false =>
      have hsel := selectPrimary_ncbi (env.uniprotSummary q) (env.ncbiSummary q) hu hn
      have hg := gpd_miss_ok env cache q _ _ hmiss hsel
      constructor
      · constructor
        · rintro ⟨m, hm⟩
          rw [hg] at hm
          cases hm
        · rintro ⟨-, h2⟩
          cases h2
      · intro r hr
        rw [hg] at hr
        cases hr
        have hds : (assembleRecord env q
            (aset "data_source" (PyVal.str "NCBI") (env.ncbiSummary q))
            Option.none).data_source = PyVal.str "NCBI" :=
          assemble_data_source _ _ _ _ _ (alookup_aset_self _ _ _) rfl
        rw [resolvedIdOf_eq env q _ _ hsel, geneSymbolOf_eq env q _ _ hsel]
        have habs := assemble_absorbed_sections env q
          (aset "data_source" (PyVal.str "NCBI") (env.ncbiSummary q)) Option.none
        refine ⟨?_, ?_, habs.1, habs.2.1, habs.2.2⟩
        · rw [hds]
          simp [hu]
        · simp [hds, hu, hn]
    | true =>
      have hsel := (selectPrimary_none_iff (env.uniprotSummary q) (env.ncbiSummary q)).mpr
        ⟨hu, hn⟩
      have hg := gpd_miss_err env cache q hmiss hsel
      constructor
      · constructor
        · intro _
          exact ⟨rfl, rfl⟩
        · intro _
          exact ⟨_, by rw [hg]⟩
      · intro r hr
        rw [hg] at hr
        cases hr

theorem c1_witness :
    (∃ msg, (get_protein_data envFail [] "UNKNOWNGENE123").1 =
      GpdResult.errRes msg "UNKNOWNGENE123") ∧
    (∃ r, (get_protein_data envOkU [] "TP53").1 = GpdResult.okRes r ∧
      r.data_source = PyVal.str "UniProt") := by
  constructor
  · exact ((c1_primary_selection_and_error_absorption envFail [] "UNKNOWNGENE123" rfl).1).mpr
      ⟨rfl, rfl⟩
  · obtain ⟨r, hr⟩ : ∃ r, (get_protein_data envOkU [] "TP53").1 = GpdResult.okRes r :=
      ⟨_, rfl⟩
    exact ⟨r, hr,
      (((c1_primary_selection_and_error_absorption envOkU [] "TP53" rfl).2 r hr).1).mpr rfl⟩

/-- C6: in the field-level merge of secondary identity data into the primary
record (lines 89-94, together with the function/summary handling through
line 109 that also only fills falsy fields), a truthy primary field is never
overwritten: the merged record keeps the primary's value. -/
theorem c6_merge_keeps_populated_primary_fields (primary : Dict) (sec : Option Dict)
    (k : String) (v : PyVal) (h : alookup k primary = some v) (hv : truthy v = true) :
    alookup k (enhance primary sec) = some v :=
  enhance_keeps_truthy primary sec k v h hv

theorem c6_witness :
    alookup "function" (enhance uniInfoOk (some ncbiInfoOk)) =
      some (PyVal.str "Tumor suppressor") :=
  c6_merge_keeps_populated_primary_fields uniInfoOk (some ncbiInfoOk) "function" _ rfl rfl

theorem accessionShaped_not_pdb (s : String) (h : accessionShaped s = true) :
    pdbIdShaped s = false := by
  rcases hl : s.toList with _ | ⟨a, _ | ⟨b, _ | ⟨c, _ | ⟨d, _ | ⟨e, _ | ⟨f, _ | ⟨g, t⟩⟩⟩⟩⟩⟩⟩ <;>
      simp_all [accessionShaped, pdbIdShaped]

/-- C7: `validate_structure_info` hard-fails on a missing `id`; with a
missing `source`, a 4-character alphanumeric id starting with a digit is
classified `pdb`, a UniProt-accession-shaped id is classified `alphafold`,
and any other id raises a validation error. -/
theorem c7_structure_source_inference (structure_info : Dict) :
    (alookup "id" structure_info = Option.none →
      ∃ e, validate_structure_info structure_info = Except.error e) ∧
    (∀ s, alookup "id" structure_info = some (PyVal.str s) →
      sourceMissing structure_info = true →
      ((pdbIdShaped s = true →
         validate_structure_info structure_info =
           Except.ok (aset "source" (PyVal.str "pdb") structure_info)) ∧
       (accessionShaped s = true →
         validate_structure_info structure_info =
           Except.ok (aset "source" (PyVal.str "alphafold") structure_info)) ∧
       (pdbIdShaped s = false → accessionShaped s = false →
         ∃ e, validate_structure_info structure_info = Except.error e))) := by
  constructor
  · intro h
    unfold validate_structure_info
    rw [h]
    exact ⟨_, rfl⟩
  · intro s hid hsm
    have hs0 : pyLower (strOf ((alookup "source" structure_info).getD (PyVal.str ""))) = "" :=
      of_decide_eq_true hsm
    have hstr : strOf (PyVal.str s) = s := rfl
    refine ⟨?_, ?_, ?_⟩
    · intro hpdb
      unfold validate_structure_info
      rw [hid]
      simp [hs0, hstr, hpdb, VALID_SOURCES]
    · intro hacc
      have hpdb := accessionShaped_not_pdb s hacc
      unfold validate_structure_info
      rw [hid]
      simp [hs0, hstr, hpdb, hacc, VALID_SOURCES]
    · intro hpdb hacc
      unfold validate_structure_info
      rw [hid]
      simp [hs0, hstr, hpdb, hacc]

theorem c7_witness :
    validate_structure_info [("id", PyVal.str "5XYZ")] =
      Except.ok [("id", PyVal.str "5XYZ"), ("source", PyVal.str "pdb")] ∧
    validate_structure_info [("id", PyVal.str "P12345")] =
      Except.ok [("id", PyVal.str "P12345"), ("source", PyVal.str "alphafold")] ∧
    (∃ e, validate_structure_info [("id", PyVal.str "not-a-known-shape")] = Except.error e) ∧
    (∃ e, validate_structure_info [("title", PyVal.str "no id here")] = Except.error e) := by
  refine ⟨?_, ?_, ?_, ?_⟩
  · exact ((c7_structure_source_inference [("id", PyVal.str "5XYZ")]).2 "5XYZ" rfl rfl).1 rfl
  · exact ((c7_structure_source_inference
      [("id", PyVal.str "P12345")]).2 "P12345" rfl rfl).2.1 rfl
  · exact ((c7_structure_source_inference
      [("id", PyVal.str "not-a-known-shape")]).2 "not-a-known-shape" rfl rfl).2.2 rfl rfl
  · exact (c7_structure_source_inference [("title", PyVal.str "no id here")]).1 rfl

/-- C2, counterexample to the claim as stated: when the first call returned
the terminal error (both identity sources failed), nothing was cached, and a
second identical call invokes the adapters again instead of making zero
adapter invocations. -/
theorem c2_counterexample :
    (get_protein_data envFail (get_protein_data envFail [] "UNKNOWNGENE123").2.1
      "UNKNOWNGENE123").2.2 ≠ zeroCalls := by decide

/-- C2 as amended: for a query whose call produced a record (not an error),
any later identical call — under any environment, i.e. even if upstream data
has changed — returns the cached record unchanged, leaves the cache
unchanged, and invokes zero adapters. -/
theorem c2_amended_cached_record_stable (env env' : Env) (cache : Cache) (q : String)
    (r : CombinedRecord) (c : Cache) (k : Calls)
    (h : get_protein_data env cache q = (GpdResult.okRes r, c, k)) :
    get_protein_data env' c q = (GpdResult.okRes r, c, zeroCalls) := by
  have hc : alookup (cacheKey q) c = some r := by
    unfold get_protein_data at h
    cases hl : alookup (cacheKey q) cache with
    | some r0 =>
      rw [hl] at h
      simp only [Prod.mk.injEq, GpdResult.okRes.injEq] at h
      obtain ⟨h1, h2, -⟩ := h
      rw [← h2, hl, h1]
    | none =>
      rw [hl] at h
      rcases hg : gpdCore env q with ⟨res, cs⟩
      rw [hg] at h
      cases res with
      | errRes m qq => simp at h
      | okRes r1 =>
        simp only [Prod.mk.injEq, GpdResult.okRes.injEq] at h
        obtain ⟨h1, h2, -⟩ := h
        rw [← h2, h1]
        exact alookup_aset_self _ _ _
  unfold get_protein_data
  rw [hc]

theorem c2_witness :
    ∃ r c k, get_protein_data envOkU [] "TP53" = (GpdResult.okRes r, c, k) ∧
      get_protein_data envFail c "TP53" = (GpdResult.okRes r, c, zeroCalls) := by
  obtain ⟨r, c, k, h⟩ : ∃ r c k,
      get_protein_data envOkU [] "TP53" = (GpdResult.okRes r, c, k) := ⟨_, _, _, rfl⟩
  exact ⟨r, c, k, h, c2_amended_cached_record_stable envOkU envFail [] "TP53" r c k h⟩

/-- C9: when the accession resolved by the mapping step is empty or still
carries the `GENE_` placeholder prefix, the structure adapter is never
invoked and the returned record's structure section is `{"structures": []}`. -/
theorem c9_placeholder_skips_structure (env : Env) (cache : Cache) (q : String)
    (hmiss : alookup (cacheKey q) cache = Option.none)
    (hid : resolvedIdOf env q = "" ∨ startsWithS (resolvedIdOf env q) "GENE_" = true) :
    (get_protein_data env cache q).2.2.structureN = 0 ∧
    (∀ r, (get_protein_data env cache q).1 = GpdResult.okRes r →
      r.structureInfo = emptyStructures) := by
  cases hsel : selectPrimary (env.uniprotSummary q) (env.ncbiSummary q) with
  | none =>
    have hg := gpd_miss_err env cache q hmiss hsel
    rw [hg]
    exact ⟨rfl, fun r hr => by cases hr⟩
  | some psec =>
    obtain ⟨p0, sec⟩ := psec
    have hg := gpd_miss_ok env cache q p0 sec hmiss hsel
    have hid' : (resolvedPair env p0 q).1 = "" ∨
        startsWithS (resolvedPair env p0 q).1 "GENE_" = true := by
      rw [← resolvedIdOf_eq env q p0 sec hsel]
      exact hid
    have hcond : ((resolvedPair env p0 q).1 ≠ "" &&
        !startsWithS (resolvedPair env p0 q).1 "GENE_") = false := by
      rcases hid' with h | h <;> simp [h]
    rw [hg]
    constructor
    · show (if ((resolvedPair env p0 q).1 ≠ "" &&
          !startsWithS (resolvedPair env p0 q).1 "GENE_") = true then 1 else 0) = 0
      rw [hcond]
      rfl
    · intro r hr
      cases hr
      show (if ((resolvedPair env p0 q).1 ≠ "" &&
          !startsWithS (resolvedPair env p0 q).1 "GENE_") = true then
          sectionOf (env.structureSummary (resolvedPair env p0 q).1 (extractGene p0 q))
            emptyStructures
        else emptyStructures) = emptyStructures
      rw [hcond]
      rfl

theorem c9_witness :
    (get_protein_data envGene [] "TP53").2.2.structureN = 0 ∧
    ∃ r, (get_protein_data envGene [] "TP53").1 = GpdResult.okRes r ∧
      r.structureInfo = emptyStructures := by
  have h := c9_placeholder_skips_structure envGene [] "TP53" rfl (Or.inr rfl)
  obtain ⟨r, hr⟩ : ∃ r, (get_protein_data envGene [] "TP53").1 = GpdResult.okRes r := ⟨_, rfl⟩
  exact ⟨h.1, r, hr, h.2 r hr⟩

/-- C10: with the real STRING adapter plugged in, the interactions section
is the dict `{"interactions": []}` exactly when the adapter call raised or
returned an error dict; whenever the STRING HTTP call answers 200 (whose
body, per the upstream json API, is a raw list) the section holds that raw
list — and the request the service makes carries the gene symbol as the
STRING id and the UniProt id in the `required_score` parameter position. -/
theorem c10_interactions_raw_json (http : Http) (e : Env) (cache : Cache) (q : String)
    (hmiss : alookup (cacheKey q) cache = Option.none)
    (h200 : ∀ ps st b, http.post INTERACTIONS_URL ps = HttpResp.resp st b → st = 200 →
      ∃ l, b = PyVal.list l) :
    ∀ r, (get_protein_data (envWithStringApi http e) cache q).1 = GpdResult.okRes r →
      ((r.interactionInfo = emptyInteractions ↔
        SubResult.absorbed (get_interactions http (geneSymbolOf (envWithStringApi http e) q)
          (PyVal.str (resolvedIdOf (envWithStringApi http e) q)) 10) = true) ∧
       (∀ l, http.post INTERACTIONS_URL
            (interactionParams (geneSymbolOf (envWithStringApi http e) q)
              (PyVal.str (resolvedIdOf (envWithStringApi http e) q)) 10) =
            HttpResp.resp 200 (PyVal.list l) →
          geneSymbolOf (envWithStringApi http e) q ≠ "" →
          r.interactionInfo = PyVal.list l)) := by
  intro r hr
  cases hsel : selectPrimary ((envWithStringApi http e).uniprotSummary q)
      ((envWithStringApi http e).ncbiSummary q) with
  | none =>
    rw [gpd_miss_err _ cache q hmiss hsel] at hr
    cases hr
  | some psec =>
    obtain ⟨p0, sec⟩ := psec
    rw [gpd_miss_ok _ cache q p0 sec hmiss hsel] at hr
    cases hr
    rw [geneSymbolOf_eq _ q p0 sec hsel, resolvedIdOf_eq _ q p0 sec hsel]
    have hint : (assembleRecord (envWithStringApi http e) q p0 sec).interactionInfo =
        sectionOf (get_interactions http (extractGene p0 q)
          (PyVal.str (resolvedPair (envWithStringApi http e) p0 q).1) 10)
          emptyInteractions := rfl
    rw [hint]
    constructor
    · by_cases hg : extractGene p0 q = ""
      · simp [get_interactions, hg, sectionOf, SubResult.absorbed, isErrDict, hasError,
          alookup]
      · cases hp : http.post INTERACTIONS_URL
            (interactionParams (extractGene p0 q)
              (PyVal.str (resolvedPair (envWithStringApi http e) p0 q).1) 10) with
        | raised =>
          simp [get_interactions, hg, hp, sectionOf, SubResult.absorbed]
        | resp st b =>
          by_cases hst : st = 200
          · subst hst
            obtain ⟨l, hb⟩ := h200 _ _ _ hp rfl
            subst hb
            simp [get_interactions, hg, hp, sectionOf, SubResult.absorbed, isErrDict,
              emptyInteractions]
          · simp [get_interactions, hg, hp, hst, sectionOf, SubResult.absorbed, isErrDict,
              hasError, alookup]
    · intro l hp hg
      simp [get_interactions, hg, hp, sectionOf, isErrDict]

theorem c10_witness :
    ∃ r, (get_protein_data (envWithStringApi httpList envOkU) [] "TP53").1 =
        GpdResult.okRes r ∧
      r.interactionInfo = PyVal.list [PyVal.dict [("preferredName_B", PyVal.str "MDM2")]] := by
  obtain ⟨r, hr⟩ : ∃ r, (get_protein_data (envWithStringApi httpList envOkU) [] "TP53").1 =
      GpdResult.okRes r := ⟨_, rfl⟩
  have h200 : ∀ ps st b, httpList.post INTERACTIONS_URL ps = HttpResp.resp st b → st = 200 →
      ∃ l, b = PyVal.list l := by
    intro ps st b h _
    injection h with h1 h2
    exact ⟨_, h2.symm⟩
  have hmain := (c10_interactions_raw_json httpList envOkU [] "TP53" rfl h200) r hr
  exact ⟨r, hr, hmain.2 _ rfl (by decide)⟩

/-- C4, counterexample to the claim as stated: `"TP53"` is in the UniProt
adapter's static well-known table, yet `search_protein` issues network calls
for it (the table maps the symbol to an accession and a direct lookup is
fetched over the network). -/
theorem c4_counterexample : (uniprot_search_protein http500 "TP53").2 ≠ 0 := by decide

theorem runApproaches_count_ge (http : Http) (c : String) (qs : List String) :
    ∀ n : Nat, n ≤ (runApproaches http c qs n).2 := by
  induction qs with
  | nil => intro n; exact Nat.le_refl n
  | cons qp rest ih =>
    intro n
    unfold runApproaches
    cases approachStep http qp with
    | raisedE => exact Nat.le_succ n
    | found v => exact Nat.le_succ n
    | missA => exact Nat.le_trans (Nat.le_succ n) (ih (n + 1))

theorem get_protein_by_gene_id_calls_min (http : Http) (gid : String) :
    1 ≤ (get_protein_by_gene_id http gid).2 := by
  unfold get_protein_by_gene_id
  cases http.get NCBI_ESUMMARY_URL [("db", "gene"), ("id", gid), ("retmode", "json")] with
  | raised => exact Nat.le_refl 1
  | resp st body =>
    dsimp only
    by_cases hst : st ≠ 200
    · rw [if_pos hst]
    · rw [if_neg hst]
      cases ncbiGeneInfoOf gid body with
      | none => exact Nat.le_refl 1
      | some gene_info =>
        dsimp only
        cases alookup "name" gene_info with
        | none => exact Nat.le_refl 1
        | some nameV =>
          dsimp only
          cases ncbiEnrich http (http.get NCBI_ESEARCH_URL
              [("db", "protein"),
               ("term", pyStrOf nameV ++ "[Gene Name] AND refseq[Filter]"),
               ("retmode", "json"), ("retmax", "1")]) with
          | raisedE2 extra =>
            show 1 ≤ 2 + extra
            omega
          | okE pid fasta extra =>
            dsimp only
            cases ncbiAssemble gid gene_info pid
                (match fasta with
                 | some pf => pf.1
                 | Option.none =>
                   pyStrip (takeBeforeChar
                     (strOf (pyGetD gene_info "description" (PyVal.str ""))) '['))
                (match fasta with
                 | some pf => pf.2
                 | Option.none => "") with
            | none =>
              show 1 ≤ 2 + extra
              omega
            | some d =>
              show 1 ≤ 2 + extra
              omega

/-- C4 as amended: only the disease-drug adapter's static tables
short-circuit with zero network calls and canned data.  The identity
adapters' static tables are identifier maps, not data: a UniProt table hit
issues at least one network call (the direct accession lookup), returning
that lookup's body wrapped as search results when it succeeds; an NCBI
table hit maps the symbol to a gene id and calls `get_protein_by_gene_id`,
which issues at least one network call (its esummary/esearch/efetch
chain), and the record that chain constructs is wrapped as search results
when the construction did not error. -/
theorem c4_amended_static_tables (http : Http) (gene q acc gid : String) (ds : PyVal)
    (hdis : alookup (pyUpper gene) COMMON_DISEASES = some ds)
    (huni : alookup (pyUpper (pyStrip q)) COMMON_PROTEINS = some acc)
    (hgid : alookup (pyUpper (pyStrip q)) COMMON_GENE_IDS = some gid) :
    get_disease_associations http gene =
      (PyVal.dict [("gene_symbol", PyVal.str gene), ("diseases", ds)], 0) ∧
    1 ≤ (uniprot_search_protein http q).2 ∧
    (isErrDict (get_protein_by_accession http acc) = false →
      uniprot_search_protein http q = (wrapHits (get_protein_by_accession http acc), 1)) ∧
    1 ≤ (ncbi_search_protein_known http q).calls ∧
    (hasError (get_protein_by_gene_id http gid).1 = false →
      ncbi_search_protein_known http q =
        NcbiKnownOutcome.hitResult
          (PyVal.dict [("results",
            PyVal.list [PyVal.dict (get_protein_by_gene_id http gid).1])])
          (get_protein_by_gene_id http gid).2) := by
  have hknown : alookup (pyUpper (pyStrip q)) NCBI_COMMON_PROTEINS = some acc := huni
  refine ⟨?_, ?_, ?_, ?_, ?_⟩
  · unfold get_disease_associations
    rw [hdis]
  · unfold uniprot_search_protein
    simp only [huni]
    by_cases he : isErrDict (get_protein_by_accession http acc) = true
    · simp only [he, if_true]
      by_cases hap : uniprotAccessionPattern (pyUpper (pyStrip q)) = true
      · simp only [hap, if_true]
        by_cases he2 : isErrDict (get_protein_by_accession http (pyUpper (pyStrip q))) = true
        · simp only [he2, if_true]
          exact Nat.le_trans (by omega) (runApproaches_count_ge http _ _ 2)
        · simp only [eq_false_of_ne_true he2, if_false]
          exact Nat.le_succ 1
      · simp only [eq_false_of_ne_true hap, if_false]
        exact runApproaches_count_ge http _ _ 1
    · simp only [eq_false_of_ne_true he, if_false]
      exact Nat.le_refl 1
  · intro he
    unfold uniprot_search_protein
    simp only [huni, he, if_false, Bool.false_eq_true]
  · unfold ncbi_search_protein_known
    simp only [hknown, hgid]
    by_cases he : hasError (get_protein_by_gene_id http gid).1 = true
    · simp only [he, if_true, NcbiKnownOutcome.calls]
      exact get_protein_by_gene_id_calls_min http gid
    · simp only [eq_false_of_ne_true he, if_false, Bool.false_eq_true,
        NcbiKnownOutcome.calls]
      exact get_protein_by_gene_id_calls_min http gid
  · intro he
    unfold ncbi_search_protein_known
    simp only [hknown, hgid, he, if_false, Bool.false_eq_true]

theorem c4_witness :
    ∃ ds, alookup (pyUpper "tp53") COMMON_DISEASES = some ds ∧
      get_disease_associations http500 "tp53" =
        (PyVal.dict [("gene_symbol", PyVal.str "tp53"), ("diseases", ds)], 0) ∧
      1 ≤ (uniprot_search_protein http500 "tp53").2 ∧
      uniprot_search_protein httpGood "TP53" =
        (wrapHits (get_protein_by_accession httpGood "P04637"), 1) ∧
      1 ≤ (ncbi_search_protein_known http500 "tp53").calls ∧
      ncbi_search_protein_known httpNcbi "TP53" =
        NcbiKnownOutcome.hitResult
          (PyVal.dict [("results",
            PyVal.list [PyVal.dict (get_protein_by_gene_id httpNcbi "7157").1])])
          (get_protein_by_gene_id httpNcbi "7157").2 := by
  obtain ⟨h1, h2, -, h4, -⟩ :=
    c4_amended_static_tables http500 "tp53" "tp53" "P04637" "7157" _ rfl rfl rfl
  obtain ⟨-, -, h3, -, -⟩ :=
    c4_amended_static_tables httpGood "TP53" "TP53" "P04637" "7157" _ rfl rfl rfl
  obtain ⟨-, -, -, -, h5⟩ :=
    c4_amended_static_tables httpNcbi "TP53" "TP53" "P04637" "7157" _ rfl rfl rfl
  exact ⟨_, rfl, h1, h2, h3 rfl, h4, h5 rfl⟩

/-- C5, counterexample to the claim as stated: `"TP5"` is absent from the
UniProt adapter's static table and `"TP53"` is a case-insensitive substring
match for it, yet with the live endpoint failing the adapter returns an
error marker rather than the matched static entry or an explicitly-empty
result — the identity adapter has no fuzzy fallback. -/
theorem c5_counterexample : isErrDict (uniprot_search_protein http500 "TP5").1 = true := by
  decide

/-- C5 as amended: the fuzzy fallback belongs to the disease-drug adapter.
For a gene absent from its static table whose live call fails (non-200 or
raised), it returns the first table entry whose key is a case-insensitive
substring match of the gene (or vice versa) relabelled under the queried
gene, an explicitly-empty non-error result when no key matches, and never an
error marker; the UniProt identity adapter instead returns an error marker
on a full miss. -/
theorem c5_amended_fuzzy_fallback (http : Http) (gene : String)
    (habs : alookup (pyUpper gene) COMMON_DISEASES = Option.none)
    (hfail : ∀ st b, http.get (DISGENET_API_URL ++ "/gda/gene/" ++ gene) [] =
      HttpResp.resp st b → st ≠ 200) :
    ((∀ kv, fuzzyFind COMMON_DISEASES gene = some kv →
       (get_disease_associations http gene).1 =
         PyVal.dict [("gene_symbol", PyVal.str gene), ("diseases", kv.2)]) ∧
     (fuzzyFind COMMON_DISEASES gene = Option.none →
       (get_disease_associations http gene).1 =
         PyVal.dict [("gene_symbol", PyVal.str gene), ("diseases", PyVal.list [])]) ∧
     isErrDict (get_disease_associations http gene).1 = false) ∧
    isErrDict (uniprot_search_protein http500 "ZZZZQQ").1 = true := by
  have hbase : get_disease_associations http gene = diseaseFuzzyResult gene := by
    unfold get_disease_associations
    rw [habs]
    cases hw : http.get (DISGENET_API_URL ++ "/gda/gene/" ++ gene) [] with
    | raised => rfl
    | resp st b =>
      have hne := hfail st b hw
      simp [hne]
  refine ⟨⟨?_, ?_, ?_⟩, by decide⟩
  · intro kv hkv
    rw [hbase]
    unfold diseaseFuzzyResult
    rw [hkv]
  · intro hnone
    rw [hbase]
    unfold diseaseFuzzyResult
    rw [hnone]
  · rw [hbase]
    unfold diseaseFuzzyResult
    cases hf : fuzzyFind COMMON_DISEASES gene with
    | none => simp [isErrDict, hasError, alookup]
    | some kv => simp [isErrDict, hasError, alookup]

theorem c5_witness :
    (∃ kv, fuzzyFind COMMON_DISEASES "TP5" = some kv ∧
      (get_disease_associations http500 "TP5").1 =
        PyVal.dict [("gene_symbol", PyVal.str "TP5"), ("diseases", kv.2)]) ∧
    (get_disease_associations http500 "NOSUCHGENE").1 =
      PyVal.dict [("gene_symbol", PyVal.str "NOSUCHGENE"), ("diseases", PyVal.list [])] ∧
    isErrDict (get_disease_associations http500 "NOSUCHGENE").1 = false := by
  have hfail1 : ∀ st b, http500.get (DISGENET_API_URL ++ "/gda/gene/" ++ "TP5") [] =
      HttpResp.resp st b → st ≠ 200 := by
    intro st b h
    cases h
    decide
  have hfail2 : ∀ st b, http500.get (DISGENET_API_URL ++ "/gda/gene/" ++ "NOSUCHGENE") [] =
      HttpResp.resp st b → st ≠ 200 := by
    intro st b h
    cases h
    decide
  obtain ⟨⟨h1, -, -⟩, -⟩ := c5_amended_fuzzy_fallback http500 "TP5" rfl hfail1
  obtain ⟨⟨-, h2, h3⟩, -⟩ := c5_amended_fuzzy_fallback http500 "NOSUCHGENE" rfl hfail2
  exact ⟨⟨_, rfl, h1 _ rfl⟩, h2 rfl, h3⟩

/-! ## The truthiness algebra of the merge (for C3). -/

theorem alookup_none_of_not_mem {β : Type} (k : String) (l : List (String × β))
    (h : k ∉ l.map Prod.fst) : alookup k l = Option.none := by
  induction l with
  | nil => rfl
  | cons kv rest ih =>
    simp only [List.map_cons, List.mem_cons] at h
    push_neg at h
    unfold alookup
    rw [if_neg (fun hh => h.1 (hh.symm)), ih h.2]

theorem truthyAt_mergeStep (acc : Dict) (k0 : String) (v0 : PyVal) (k : String) :
    truthyAt (mergeStep acc (k0, v0)) k =
      if k0 = k then (truthyAt acc k || truthy v0) else truthyAt acc k := by
  unfold mergeStep truthyAt pyGetNone
  by_cases hk : k0 = k
  · subst hk
    cases hl : alookup k0 acc with
    | none => simp [hl, alookup_aset_self, truthy]
    | some w =>
      by_cases hw : truthy w = true
      · simp [hl, hw]
      · simp [hl, hw, alookup_aset_self]
  · cases hl : alookup k0 acc with
    | none => simp [hk, alookup_aset_ne _ _ (fun hh => hk hh.symm)]
    | some w =>
      by_cases hw : truthy w = true
      · simp [hk, hw]
      · simp [hk, hw, alookup_aset_ne _ _ (fun hh => hk hh.symm)]

theorem truthyAt_mergeSecondary (sec : Dict) :
    ∀ (acc : Dict) (k : String), (sec.map Prod.fst).Nodup →
      truthyAt (mergeSecondary acc sec) k = (truthyAt acc k || truthyAt sec k) := by
  induction sec with
  | nil =>
    intro acc k _
    show truthyAt acc k = (truthyAt acc k || truthyAt [] k)
    simp [truthyAt, pyGetNone, alookup, truthy]
  | cons kv rest ih =>
    intro acc k hnd
    obtain ⟨k0, v0⟩ := kv
    have hnd' : (rest.map Prod.fst).Nodup := (List.nodup_cons.mp hnd).2
    have hk0 : k0 ∉ rest.map Prod.fst := (List.nodup_cons.mp hnd).1
    have hfold : mergeSecondary acc ((k0, v0) :: rest) =
        mergeSecondary (mergeStep acc (k0, v0)) rest := rfl
    rw [hfold, ih _ k hnd', truthyAt_mergeStep]
    by_cases hk : k0 = k
    · subst hk
      have hr : truthyAt rest k0 = false := by
        unfold truthyAt pyGetNone
        rw [alookup_none_of_not_mem k0 rest hk0]
        rfl
      have h2 : truthyAt ((k0, v0) :: rest) k0 = truthy v0 := by
        unfold truthyAt pyGetNone alookup
        simp
      rw [if_pos rfl, hr, h2]
      simp
    · have halook : alookup k ((k0, v0) :: rest) = alookup k rest := by
        show (if k0 = k then some v0 else alookup k rest) = alookup k rest
        rw [if_neg hk]
      have h2 : truthyAt ((k0, v0) :: rest) k = truthyAt rest k := by
        unfold truthyAt pyGetNone
        rw [halook]
      rw [if_neg hk, h2]

theorem pyGetNone_truthy_lookup (d : Dict) (k : String)
    (h : truthy (pyGetNone d k) = true) : alookup k d = some (pyGetNone d k) := by
  unfold pyGetNone at *
  cases hl : alookup k d with
  | none =>
    rw [hl] at h
    simp [truthy] at h
  | some v => simp [hl]

theorem backfill_tt (m0 s : Dict) (hf : truthy (pyGetNone m0 "function") = true)
    (hs : truthy (pyGetNone m0 "summary") = true) : backfill m0 s = m0 := by
  unfold backfill
  simp [hf, hs]

theorem backfill_tf (m0 s : Dict) (hf : truthy (pyGetNone m0 "function") = true)
    (hs : truthy (pyGetNone m0 "summary") = false)
    (hss : truthy (pyGetNone s "summary") = false) :
    backfill m0 s = aset "summary" (pyGetNone m0 "function") m0 := by
  unfold backfill
  simp [hf, hs, hss]

theorem backfill_ft (m0 s : Dict) (hf : truthy (pyGetNone m0 "function") = false)
    (hs : truthy (pyGetNone m0 "summary") = true)
    (hsf : truthy (pyGetNone s "function") = false) :
    backfill m0 s = aset "function" (pyGetNone m0 "summary") m0 := by
  unfold backfill
  have h1 : pyGetNone (aset "function" (pyGetNone m0 "summary") m0) "summary" =
      pyGetNone m0 "summary" := by
    unfold pyGetNone
    rw [alookup_aset_ne _ _ (by decide)]
  simp [hf, hs, hsf, h1]

theorem backfill_ff (m0 s : Dict) (hf : truthy (pyGetNone m0 "function") = false)
    (hs : truthy (pyGetNone m0 "summary") = false)
    (hsf : truthy (pyGetNone s "function") = false)
    (hss : truthy (pyGetNone s "summary") = false) : backfill m0 s = m0 := by
  unfold backfill
  simp [hf, hs, hsf, hss]

theorem enhance_run (p s : Dict) (hne : s.isEmpty = false) (herr : hasError s = false) :
    enhance p (some s) = backfill (mergeSecondary p s) s := by
  unfold enhance
  simp [hne, herr]

/-- C3 as amended: the function/summary backfill runs only when the
secondary identity source is present, non-empty and error-free.  Under that
condition the merged record has both fields truthy whenever either source
supplied either of them; and when the secondary supplies no summary (resp.
no function), the primary's function (resp. summary) value itself is copied
into the other field, so `function="X"`/`summary=""` yields `summary="X"`
and vice versa. -/
theorem c3_amended_function_summary_backfill (p s : Dict)
    (hnd : (s.map Prod.fst).Nodup) (hne : s.isEmpty = false) (herr : hasError s = false) :
    ((truthyAt p "function" || truthyAt s "function" ||
      truthyAt p "summary" || truthyAt s "summary") = true →
      truthyAt (enhance p (some s)) "function" = true ∧
      truthyAt (enhance p (some s)) "summary" = true) ∧
    (truthyAt p "function" = true → truthyAt p "summary" = false →
      truthyAt s "summary" = false →
      pyGetNone (enhance p (some s)) "summary" = pyGetNone p "function" ∧
      pyGetNone (enhance p (some s)) "function" = pyGetNone p "function") ∧
    (truthyAt p "summary" = true → truthyAt p "function" = false →
      truthyAt s "function" = false →
      pyGetNone (enhance p (some s)) "function" = pyGetNone p "summary" ∧
      pyGetNone (enhance p (some s)) "summary" = pyGetNone p "summary") := by
  have hE := enhance_run p s hne herr
  have hF := truthyAt_mergeSecondary s p "function" hnd
  have hS := truthyAt_mergeSecondary s p "summary" hnd
  refine ⟨?_, ?_, ?_⟩
  · intro hor
    cases hf : truthyAt (mergeSecondary p s) "function" with
    | true =>
      cases hs : truthyAt (mergeSecondary p s) "summary" with
      | true =>
        rw [hE, backfill_tt _ s hf hs]
        exact ⟨hf, hs⟩
      | false =>
        have h1 : (truthyAt p "summary" || truthyAt s "summary") = false := by
          rw [← hS]
          exact hs
        simp only [Bool.or_eq_false_iff] at h1
        rw [hE, backfill_tf _ s hf hs h1.2]
        constructor
        · unfold truthyAt pyGetNone
          rw [alookup_aset_ne _ _ (by decide)]
          exact hf
        · unfold truthyAt pyGetNone
          rw [alookup_aset_self]
          exact hf
    | false =>
      have h1 : (truthyAt p "function" || truthyAt s "function") = false := by
        rw [← hF]
        exact hf
      simp only [Bool.or_eq_false_iff] at h1
      cases hs : truthyAt (mergeSecondary p s) "summary" with
      | true =>
        rw [hE, backfill_ft _ s hf hs h1.2]
        constructor
        · unfold truthyAt pyGetNone
          rw [alookup_aset_self]
          exact hs
        · unfold truthyAt pyGetNone
          rw [alookup_aset_ne _ _ (by decide)]
          exact hs
      | false =>
        exfalso
        have h2 : (truthyAt p "summary" || truthyAt s "summary") = false := by
          rw [← hS]
          exact hs
        simp only [Bool.or_eq_false_iff] at h2
        rw [h1.1, h1.2, h2.1, h2.2] at hor
        simp at hor
  · intro hpf hps hss
    have hf : truthyAt (mergeSecondary p s) "function" = true := by
      rw [hF, hpf]
      rfl
    have hs : truthyAt (mergeSecondary p s) "summary" = false := by
      rw [hS, hps, hss]
      rfl
    have hlook := pyGetNone_truthy_lookup p "function" hpf
    have hm0v : alookup "function" (mergeSecondary p s) = some (pyGetNone p "function") :=
      mergeSecondary_keeps_truthy s p "function" _ hlook hpf
    have hm0get : pyGetNone (mergeSecondary p s) "function" = pyGetNone p "function" := by
      unfold pyGetNone
      rw [hm0v]
      rfl
    rw [hE, backfill_tf _ s hf hs hss]
    constructor
    · unfold pyGetNone
      rw [alookup_aset_self]
      exact hm0get
    · unfold pyGetNone
      rw [alookup_aset_ne _ _ (by decide), hm0v]
      rfl
  · intro hps hpf hsf
    have hf : truthyAt (mergeSecondary p s) "function" = false := by
      rw [hF, hpf, hsf]
      rfl
    have hs : truthyAt (mergeSecondary p s) "summary" = true := by
      rw [hS, hps]
      rfl
    have hlook := pyGetNone_truthy_lookup p "summary" hps
    have hm0v : alookup "summary" (mergeSecondary p s) = some (pyGetNone p "summary") :=
      mergeSecondary_keeps_truthy s p "summary" _ hlook hps
    have hm0get : pyGetNone (mergeSecondary p s) "summary" = pyGetNone p "summary" := by
      unfold pyGetNone
      rw [hm0v]
      rfl
    rw [hE, backfill_ft _ s hf hs hsf]
    constructor
    · unfold pyGetNone
      rw [alookup_aset_self]
      exact hm0get
    · unfold pyGetNone
      rw [alookup_aset_ne _ _ (by decide), hm0v]
      rfl

/-- C3, counterexample to the claim as stated: the backfill only runs when
the secondary identity source is available and error-free.  Here UniProt
succeeds with `function="X"` and an empty summary while NCBI errors: the
merged record keeps the empty summary instead of backfilling `"X"`. -/
theorem c3_counterexample :
    ∃ r, (get_protein_data envFnOnly [] "SOMEGENE").1 = GpdResult.okRes r ∧
      pyGetD r.basic_info "function" (PyVal.str "") = PyVal.str "X" ∧
      pyGetD r.basic_info "summary" (PyVal.str "") = PyVal.str "" ∧
      pyGetD r.basic_info "summary" (PyVal.str "") ≠ PyVal.str "X" := by
  refine ⟨_, rfl, rfl, rfl, ?_⟩
  intro h
  have h2 : PyVal.str "" = PyVal.str "X" := h
  injection h2 with h3
  exact absurd h3 (by decide)

theorem c3_witness :
    pyGetNone (enhance [("function", PyVal.str "X"), ("summary", PyVal.str "")]
      (some [("organism", PyVal.str "Homo sapiens")])) "summary" = PyVal.str "X" ∧
    truthyAt (enhance [("function", PyVal.str "X"), ("summary", PyVal.str "")]
      (some [("organism", PyVal.str "Homo sapiens")])) "function" = true := by
  have h := c3_amended_function_summary_backfill
    [("function", PyVal.str "X"), ("summary", PyVal.str "")]
    [("organism", PyVal.str "Homo sapiens")] (by simp) rfl rfl
  refine ⟨?_, (h.1 (by decide)).1⟩
  have hb := h.2.1 (by decide) (by decide) (by decide)
  exact hb.1.trans rfl

theorem chatBranch_eq_specRoute (record : CombinedRecord) (pre : ChatPre) (uq : String) :
    chatBranch record pre (pyLower uq) = renderFor record pre (specRoute uq) := by
  unfold chatBranch specRoute
  simp only [keywordSets, firstMatchCat, List.any_cons, List.any_nil, Bool.or_false,
    Bool.or_assoc]
  split_ifs <;> rfl

/-- C8 as amended: the formatter lower-cases the question and routes it
through the fixed ordered keyword sets with the first matching set winning
(`chatBody` equals the spec-shaped route-then-render formatter), and
whenever the formatter completes without an internal exception, its answer
ends with the trailing sentence naming the record's primary data source.
The counterexample shows the exception path — an interaction-keyword
question against a record whose interactions section holds the raw upstream
list — is reachable, so the unqualified "always" of the claim fails. -/
theorem c8_amended_routing_and_attribution (record : CombinedRecord) (user_query : String) :
    chatBody record user_query = chatBodySpec record user_query ∧
    (∀ t, chatBody record user_query = Except.ok t →
      ∃ body, t = body ++ attributionOf record ∧
        get_protein_chat_response record user_query = t) := by
  constructor
  · unfold chatBody chatBodySpec
    cases hp : chatPre record with
    | error e => rfl
    | ok pre =>
      show (match chatBranch record pre (pyLower user_query) with
        | Except.error e => Except.error e
        | Except.ok body => Except.ok (body ++ attributionOf record)) =
        (match renderFor record pre (specRoute user_query) with
        | Except.error e => Except.error e
        | Except.ok body => Except.ok (body ++ attributionOf record))
      rw [chatBranch_eq_specRoute]
  · intro t ht
    unfold chatBody at ht
    cases hp : chatPre record with
    | error e =>
      rw [hp] at ht
      replace ht : (Except.error e : Except Unit String) = Except.ok t := ht
      cases ht
    | ok pre =>
      rw [hp] at ht
      replace ht : (match chatBranch record pre (pyLower user_query) with
        | Except.error e => Except.error e
        | Except.ok body => Except.ok (body ++ attributionOf record)) = Except.ok t := ht
      cases hb : chatBranch record pre (pyLower user_query) with
      | error e =>
        rw [hb] at ht
        cases ht
      | ok body =>
        rw [hb] at ht
        injection ht with ht1
        refine ⟨body, ht1.symm, ?_⟩
        have hcb : chatBody record user_query = Except.ok t := by
          unfold chatBody
          rw [hp]
          show (match chatBranch record pre (pyLower user_query) with
            | Except.error e => Except.error e
            | Except.ok body => Except.ok (body ++ attributionOf record)) = Except.ok t
          rw [hb]
          show Except.ok (body ++ attributionOf record) = Except.ok t
          rw [ht1]
        unfold get_protein_chat_response
        rw [hcb]

/-- C8, counterexample to the claim as stated: a record whose interactions
section holds the raw STRING list (produced by the service itself, see C10)
answers an interaction-keyword question with the generic internal-error
message, which does not end with the source-attribution sentence. -/
theorem c8_counterexample :
    ∃ r, (get_protein_data (envWithStringApi httpList envOkU) [] "TP53").1 =
        GpdResult.okRes r ∧
      get_protein_chat_response r "binding partners" =
        "I encountered an error while trying to answer your question about TP53. Please try again or ask about a different protein." ∧
      suffixMatch (attributionOf r) (get_protein_chat_response r "binding partners") = false :=
  ⟨_, rfl, rfl, rfl⟩

theorem c8_witness :
    ∃ t body, chatBody recSimple "What is its function?" = Except.ok t ∧
      t = body ++ attributionOf recSimple ∧
      get_protein_chat_response recSimple "What is its function?" = t := by
  obtain ⟨t, ht⟩ : ∃ t, chatBody recSimple "What is its function?" = Except.ok t := ⟨_, rfl⟩
  obtain ⟨body, hb, hr⟩ :=
    (c8_amended_routing_and_attribution recSimple "What is its function?").2 t ht
  exact ⟨t, body, ht, hb, hr⟩
